import Mathlib

set_option maxHeartbeats 1000000
set_option maxRecDepth 100000

namespace Matterbot

/-! # Shallow embedding of the matterbot provenance-gated scrape ingestion pipeline

Embeds the validation engine (`validation.js` / `executeValidateBrandData`),
the brand scrape session store (`brands.js`), the catalog-link extraction of
`executeScrapeBrand`, and the provenance-gated save with its deferred
Matterbase create payload (`notion-tools.ts`).  Module-level mutable caches
are modeled by explicit state passing; `Date.now()` and `randomUUID()` are
explicit parameters; external services (Notion API, Hunter) are modeled at
their interface boundary as parameters. -/

/-- JavaScript primitive values flowing through the loosely typed field bags
(contact details, proposed brand records): strings or numbers.  Numbers are
modeled as integers; the pipeline only tests them for presence and (strict)
equality and never does arithmetic on them. -/
inductive JVal where
  | jstr (s : String)
  | jnum (n : Int)
deriving DecidableEq, Repr

/-- A loosely typed record (`Record<string, string | number | null>`): an
association list from keys to values.  An explicit `null` value behaves
identically to an absent key at every read site (`== null`,
`toNonEmptyString`), so both are modeled as absence. -/
abbrev FieldBag := List (String × JVal)

/-- Object property read: `bag[key]`, `undefined`/`null` becomes `none`. -/
def bagGet (bag : FieldBag) (key : String) : Option JVal :=
  (bag.find? (fun p => p.1 == key)).map (fun p => p.2)

/-- JS `toLowerCase()` (structural character-list implementation, so that
concrete inputs evaluate inside the kernel). -/
def strToLower (s : String) : String :=
  String.mk (s.data.map Char.toLower)

/-- JS `toUpperCase()`. -/
def strToUpper (s : String) : String :=
  String.mk (s.data.map Char.toUpper)

/-- JS `trim()`: strip whitespace from both ends. -/
def strTrim (s : String) : String :=
  String.mk (((s.data.dropWhile Char.isWhitespace).reverse.dropWhile
    Char.isWhitespace).reverse)

/-- JS `startsWith`. -/
def strStartsWith (s p : String) : Bool :=
  p.data.isPrefixOf s.data

/-- JS `endsWith`. -/
def strEndsWith (s p : String) : Bool :=
  p.data.isSuffixOf s.data

/-- JS `split(c)` on a single-character separator (character-list worker). -/
def splitOnCharAux (c : Char) : List Char → List (List Char)
  | [] => [[]]
  | x :: rest =>
    if x == c then [] :: splitOnCharAux c rest
    else
      match splitOnCharAux c rest with
      | h :: t => (x :: h) :: t
      | [] => [[x]]

/-- JS `split(c)` on a single-character separator. -/
def splitOnChar (c : Char) (s : String) : List String :=
  (splitOnCharAux c s.data).map String.mk

/-- The `replace(/\r\n/g, "\n")` line-ending normalization. -/
def crlfToLf : List Char → List Char
  | '\r' :: '\n' :: rest => '\n' :: crlfToLf rest
  | c :: rest => c :: crlfToLf rest
  | [] => []

/-- Numeric value of a list of decimal digits. -/
def digitsToNat (ds : List Char) : Nat :=
  ds.foldl (fun n c => n * 10 + (c.toNat - 48)) 0

/-- JS test `v != null && v !== ""` on an optional string. -/
def strFilled : Option String → Bool
  | none => false
  | some s => s != ""

/-- JS test `v != null && v !== ""` on an optional loose value (numbers,
including 0, count as present). -/
def jFilled : Option JVal → Bool
  | none => false
  | some (JVal.jstr s) => s != ""
  | some (JVal.jnum _) => true

/-- JS truthiness of an optional loose value (`""` and `0` are falsy). -/
def jTruthy : Option JVal → Bool
  | none => false
  | some (JVal.jstr s) => s != ""
  | some (JVal.jnum n) => n != 0

/-- JS strict inequality `v !== s` between a loose value and a string. -/
def jNeqStr : Option JVal → String → Bool
  | some (JVal.jstr s), t => s != t
  | some (JVal.jnum _), _ => true
  | none, _ => true

/-- Severity of a validation issue. -/
inductive Severity where
  | error
  | warning
deriving DecidableEq, Repr

/-- `ValidationIssue` of `validation.js`. -/
structure ValidationIssue where
  field : String
  severity : Severity
  message : String
  expected : Option JVal := none
  received : Option JVal := none
deriving DecidableEq, Repr

/-- `ParsedDistributor` of `brands.js` (ground truth; `name` is required). -/
structure ParsedDistributor where
  name : String
  type : Option String := none
  street : Option String := none
  city : Option String := none
  zip : Option String := none
  phone : Option String := none
  email : Option String := none
  website : Option String := none
deriving DecidableEq, Repr

/-- `ProposedDistributor` of `validation.js` (caller supplied, all optional). -/
structure ProposedDistributor where
  name : Option String := none
  street : Option String := none
  city : Option String := none
  zip : Option String := none
  phone : Option String := none
  email : Option String := none
  website : Option String := none
deriving DecidableEq, Repr

/-- `ParsedCatalogLink` of `brands.js`. -/
structure ParsedCatalogLink where
  url : String
  filename : Option String := none
deriving DecidableEq, Repr

/-- Extracted image URL bundle (`ExtractedImageUrls` of `brands.js`); the
source uses `string | null` per field, `null`/absent modeled as `none`. -/
structure ExtractedImageUrls where
  logoUrl : Option String := none
  headerImageUrl : Option String := none
  aboutImageUrl : Option String := none
deriving DecidableEq, Repr

/-- Fetch metadata; the validator only reads `ogImage`. -/
structure MetadataInput where
  ogImage : Option String := none
deriving DecidableEq, Repr

/-- A proposed catalog entry as read by the validator
(`Array<{ downloadUrl?: string }>`). -/
structure CatalogRef where
  downloadUrl : Option String := none
deriving DecidableEq, Repr

/-- `ScrapeResultInput` of `validation.js`. -/
structure ScrapeResultInput where
  contactDetails : Option FieldBag := none
  parsedDistributors : Option (List ParsedDistributor) := none
  distributorCount : Option Int := none
  markdown : Option String := none
  links : Option (List String) := none
  metadata : Option MetadataInput := none
  extractedImageUrls : Option ExtractedImageUrls := none
deriving DecidableEq, Repr

/-- The keys of the caller-proposed `brandData` record that
`executeValidateBrandData` reads, as a typed projection of the loose
`Record<string, unknown>`. -/
structure BrandData where
  phone : Option JVal := none
  email : Option JVal := none
  contactEmail : Option JVal := none
  street : Option JVal := none
  city : Option JVal := none
  postalCode : Option JVal := none
  latitude : Option JVal := none
  longitude : Option JVal := none
  website : Option JVal := none
  facebook : Option JVal := none
  instagram : Option JVal := none
  pinterest : Option JVal := none
  logoUrl : Option JVal := none
  headerImageUrl : Option JVal := none
  aboutImageUrl : Option JVal := none
  description : Option JVal := none
  architonicUrl : Option String := none
  distributors : Option (List ProposedDistributor) := none
  catalogs : Option (List CatalogRef) := none
deriving DecidableEq, Repr

/-- `ValidationResult` of `validation.js`. -/
structure ValidationResult where
  valid : Bool
  errorCount : Nat
  warningCount : Nat
  issues : List ValidationIssue
  summary : String
deriving DecidableEq, Repr

/-- `checkContactField` of `validation.js`: error when the contact details
hold a present (non-null, non-empty) value under `sourceKey` and the proposed
record's `targetKey` is null/absent/empty. -/
def checkContactField (contactDetails : FieldBag) (sourceKey targetKey label : String)
    (received : Option JVal) : List ValidationIssue :=
  match bagGet contactDetails sourceKey with
  | none => []
  | some expected =>
    if jFilled (some expected) then
      if jFilled received then []
      else
        [{ field := targetKey
           severity := Severity.error
           message := label ++ " present in contactDetails." ++ sourceKey ++
             " but missing from brandData." ++ targetKey
           expected := some expected
           received := received }]
    else []

/-- `checkEmailField` of `validation.js`: the email presence check is
satisfied by either `brandData.email` or `brandData.contactEmail`. -/
def checkEmailField (contactDetails : FieldBag) (bd : BrandData) : List ValidationIssue :=
  match bagGet contactDetails "email" with
  | none => []
  | some expected =>
    if jFilled (some expected) then
      if jFilled bd.email || jFilled bd.contactEmail then []
      else
        [{ field := "email"
           severity := Severity.error
           message := "Email present in contactDetails.email but missing from both brandData.email and brandData.contactEmail"
           expected := some expected
           received := none }]
    else []

/-- Map `set` on an association list: replace an existing binding in place,
otherwise append (JS `Map.set` semantics restricted to later `get`s). -/
def mapSet (m : List (String × ProposedDistributor)) (key : String)
    (v : ProposedDistributor) : List (String × ProposedDistributor) :=
  if m.any (fun p => p.1 == key) then
    m.map (fun p => if p.1 == key then (key, v) else p)
  else m ++ [(key, v)]

/-- Map `get` on an association list. -/
def mapGet (m : List (String × ProposedDistributor)) (key : String) :
    Option ProposedDistributor :=
  (m.find? (fun p => p.1 == key)).map (fun p => p.2)

/-- The lookup of proposed distributors keyed by normalized
(lower-cased, trimmed) name, built by `checkDistributors`. -/
def buildProposedByName (l : List ProposedDistributor) :
    List (String × ProposedDistributor) :=
  l.foldl
    (fun m d =>
      match d.name with
      | some n => if n != "" then mapSet m (strTrim (strToLower n)) d else m
      | none => m)
    []

/-- One per-distributor field comparison of `checkDistributors`: warn when the
parsed distributor has the field but the matched proposed entry does not. -/
def checkDistField (dname label : String) (parsedVal matchVal : Option String) :
    List ValidationIssue :=
  if strFilled parsedVal && !(strFilled matchVal) then
    [{ field := "distributors[" ++ dname ++ "]." ++ label
       severity := Severity.warning
       message := "Distributor \"" ++ dname ++ "\" has " ++ label ++
         " in parsed data but it is missing in brandData (will be auto-corrected)"
       expected := parsedVal.map JVal.jstr
       received := none }]
  else []

/-- Field comparisons for one parsed distributor against its name match (in
the fixed `fieldKeys` order street, city, zip, phone, email, website);
empty when no proposed entry matches the name. -/
def distributorFieldIssues (pbn : List (String × ProposedDistributor))
    (parsed : ParsedDistributor) : List ValidationIssue :=
  match mapGet pbn (strTrim (strToLower parsed.name)) with
  | none => []
  | some m =>
    checkDistField parsed.name "street" parsed.street m.street ++
    checkDistField parsed.name "city" parsed.city m.city ++
    checkDistField parsed.name "zip" parsed.zip m.zip ++
    checkDistField parsed.name "phone" parsed.phone m.phone ++
    checkDistField parsed.name "email" parsed.email m.email ++
    checkDistField parsed.name "website" parsed.website m.website

/-- Names of parsed distributors with no proposed name match, in parse order. -/
def missingDistributorNames (pbn : List (String × ProposedDistributor))
    (distributors : List ParsedDistributor) : List String :=
  (distributors.filter (fun p => (mapGet pbn (strTrim (strToLower p.name))).isNone)).map
    (fun p => p.name)

/-- The warning emitted when the proposed record has no distributors at all
while ground truth has `n`; it carries the full ground-truth count. -/
def zeroDistributorsWarning (n : Nat) : ValidationIssue :=
  { field := "distributors"
    severity := Severity.warning
    message := toString n ++
      " distributors parsed/cached but brandData.distributors is empty (they will be auto-attached by save_brand_to_notion)"
    expected := some (JVal.jnum n)
    received := some (JVal.jnum 0) }

/-- The warning emitted when the proposed distributor count is under 50% of
the ground-truth count. -/
def distributorCountMismatchWarning (parsedCount proposedCount : Nat) : ValidationIssue :=
  { field := "distributors"
    severity := Severity.warning
    message := "Distributor count mismatch: " ++ toString parsedCount ++
      " parsed but only " ++ toString proposedCount ++
      " in brandData (<50%, will be auto-corrected)"
    expected := some (JVal.jnum parsedCount)
    received := some (JVal.jnum proposedCount) }

/-- Body of `checkDistributors` once the ground-truth list has been resolved
and found non-empty. -/
def checkDistributorsCore (distributors : List ParsedDistributor) (bd : BrandData) :
    List ValidationIssue :=
  let proposedArr := bd.distributors.getD []
  if proposedArr.isEmpty then
    [zeroDistributorsWarning distributors.length]
  else
    let countIssues :=
      if 2 * proposedArr.length < distributors.length then
        [distributorCountMismatchWarning distributors.length proposedArr.length]
      else []
    let pbn := buildProposedByName proposedArr
    let fieldIssues := distributors.flatMap (distributorFieldIssues pbn)
    let missingNames := missingDistributorNames pbn distributors
    let missingIssues :=
      if missingNames.isEmpty then []
      else
        let shown := missingNames.take 10
        let extra :=
          if missingNames.length > 10 then
            " (and " ++ toString (missingNames.length - 10) ++ " more)"
          else ""
        [{ field := "distributors"
           severity := Severity.warning
           message := toString missingNames.length ++
             " distributors from parsed data not found in brandData: " ++
             String.intercalate ", " shown ++ extra ++ " (will be auto-corrected)"
           expected := some (JVal.jnum distributors.length)
           received := some (JVal.jnum proposedArr.length) }]
    countIssues ++ fieldIssues ++ missingIssues

/-- Ground-truth resolution step of `checkDistributors`: the cached list
(keyed by `brandData.architonicUrl`) replaces the live list only when the
live list is missing or empty, the proposed record carries a truthy source
URL, and the cache entry is non-empty. -/
def resolveCheckDistributorsGT (distCache : String → Option (List ParsedDistributor))
    (parsedDistributors : Option (List ParsedDistributor)) (bd : BrandData) :
    Option (List ParsedDistributor) :=
  let isEmptyLive :=
    match parsedDistributors with
    | none => true
    | some l => l.isEmpty
  if isEmptyLive && strFilled bd.architonicUrl then
    match bd.architonicUrl with
    | some url =>
      match distCache url with
      | some cached => if cached.length > 0 then some cached else parsedDistributors
      | none => parsedDistributors
    | none => parsedDistributors
  else parsedDistributors

/-- `checkDistributors` of `validation.js`; the module-level distributor cache
is passed explicitly. -/
def checkDistributors (distCache : String → Option (List ParsedDistributor))
    (parsedDistributors : Option (List ParsedDistributor)) (bd : BrandData) :
    List ValidationIssue :=
  match resolveCheckDistributorsGT distCache parsedDistributors bd with
  | none => []
  | some distributors =>
    if distributors.isEmpty then []
    else checkDistributorsCore distributors bd

/-- `checkHeaderImageFallback` of `validation.js`. -/
def checkHeaderImageFallback (metadata : Option MetadataInput) (bd : BrandData) :
    List ValidationIssue :=
  match metadata with
  | none => []
  | some md =>
    match md.ogImage with
    | none => []
    | some og =>
      if og == "" then []
      else if jFilled bd.headerImageUrl then []
      else
        [{ field := "headerImageUrl"
           severity := Severity.warning
           message := "metadata.ogImage available as fallback for headerImageUrl but brandData.headerImageUrl is missing"
           expected := some (JVal.jstr og)
           received := none }]

/-- One missing-or-mismatch image check of `checkImageUrls`. -/
def checkImageField (fieldName : String) (severity : Severity)
    (extracted : Option String) (proposed : Option JVal)
    (missingMsg mismatchMsg : String) : List ValidationIssue :=
  match extracted with
  | none => []
  | some ex =>
    if ex == "" then []
    else if !(jTruthy proposed) then
      [{ field := fieldName, severity := severity, message := missingMsg
         expected := some (JVal.jstr ex), received := none }]
    else if jNeqStr proposed ex then
      [{ field := fieldName, severity := severity, message := mismatchMsg
         expected := some (JVal.jstr ex), received := proposed }]
    else []

/-- `checkImageUrls` of `validation.js`: logo mismatches are errors, header
and about image mismatches are warnings. -/
def checkImageUrls (extractedImageUrls : Option ExtractedImageUrls) (bd : BrandData) :
    List ValidationIssue :=
  match extractedImageUrls with
  | none => []
  | some ex =>
    checkImageField "logoUrl" Severity.error ex.logoUrl bd.logoUrl
      "extractedImageUrls.logoUrl available but brandData.logoUrl is missing"
      "brandData.logoUrl does not match extractedImageUrls.logoUrl — use the exact extractedImageUrls.logoUrl value" ++
    checkImageField "headerImageUrl" Severity.warning ex.headerImageUrl bd.headerImageUrl
      "extractedImageUrls.headerImageUrl available but brandData.headerImageUrl is missing (will be auto-corrected)"
      "brandData.headerImageUrl does not match extractedImageUrls.headerImageUrl" ++
    checkImageField "aboutImageUrl" Severity.warning ex.aboutImageUrl bd.aboutImageUrl
      "extractedImageUrls.aboutImageUrl available but brandData.aboutImageUrl is missing (will be auto-corrected)"
      "brandData.aboutImageUrl does not match extractedImageUrls.aboutImageUrl"

/-- Case-insensitive keyword test used by the about-heading regex
`/#{1,3}\s*(about|philosophy|company|who we are)/i`: does one of the
keywords start at this position (after lower-casing)? -/
def aboutKeywordAt (l : List Char) : Bool :=
  ["about", "philosophy", "company", "who we are"].any
    (fun kw => kw.data.isPrefixOf (l.map Char.toLower))

/-- Attempts the heading pattern at the current position: one to three '#'
characters, then any whitespace, then a keyword.  Mirrors the regex with its
backtracking over the 1-3 hash count. -/
def aboutHeadingAt (l : List Char) : Bool :=
  match l with
  | '#' :: r1 =>
    aboutKeywordAt (r1.dropWhile Char.isWhitespace) ||
    (match r1 with
     | '#' :: r2 =>
       aboutKeywordAt (r2.dropWhile Char.isWhitespace) ||
       (match r2 with
        | '#' :: r3 => aboutKeywordAt (r3.dropWhile Char.isWhitespace)
        | _ => false)
     | _ => false)
  | _ => false

/-- Unanchored regex test: tries the heading pattern at every position. -/
def hasAboutHeadingAux : List Char → Bool
  | [] => false
  | c :: rest => aboutHeadingAt (c :: rest) || hasAboutHeadingAux rest

/-- The test `/#{1,3}\s*(about|philosophy|company|who we are)/i.test(markdown)`
of `checkDescriptionPresent`. -/
def hasAboutHeading (s : String) : Bool :=
  hasAboutHeadingAux s.data

/-- `checkDescriptionPresent` of `validation.js`. -/
def checkDescriptionPresent (markdown : Option String) (bd : BrandData) :
    List ValidationIssue :=
  match markdown with
  | none => []
  | some md =>
    if md == "" then []
    else if !(hasAboutHeading md) then []
    else if jTruthy bd.description then []
    else
      [{ field := "description"
         severity := Severity.warning
         message := "Markdown contains about/philosophy heading but brandData.description is missing" }]

/-- Number of non-overlapping matches of `/catalog/gi`: left-to-right scan,
skipping past each match. -/
def countCatalog : List Char → Nat
  | [] => 0
  | c :: rest =>
    if "catalog".data.isPrefixOf (c :: rest) then 1 + countCatalog (rest.drop 6)
    else countCatalog rest
termination_by l => l.length
decreasing_by
  · simp only [List.length_drop, List.length_cons]
    omega
  · simp only [List.length_cons]
    omega

/-- `checkCatalogsPresent` of `validation.js`; the module-level catalog-link
cache is passed explicitly. -/
def checkCatalogsPresent (catalogCache : String → Option (List ParsedCatalogLink))
    (markdown : Option String) (bd : BrandData) : List ValidationIssue :=
  match markdown with
  | none => []
  | some md =>
    if md == "" then []
    else
      let catalogMentions := countCatalog (md.data.map Char.toLower)
      if catalogMentions < 2 then []
      else
        let catalogs := bd.catalogs.getD []
        if catalogs.isEmpty then
          [{ field := "catalogs"
             severity := Severity.warning
             message := "Markdown mentions \"catalog\" " ++ toString catalogMentions ++
               " times but brandData.catalogs is empty or missing" }]
        else
          let catalogsWithDownload := catalogs.filter (fun c => strFilled c.downloadUrl)
          if catalogsWithDownload.isEmpty then
            let cachedLinks :=
              match bd.architonicUrl with
              | some url => if url != "" then catalogCache url else none
              | none => none
            match cachedLinks with
            | some links =>
              if links.length > 0 then
                [{ field := "catalogs"
                   severity := Severity.warning
                   message := toString catalogs.length ++
                     " catalog(s) present but none have downloadUrl. " ++
                     toString links.length ++
                     " catalog download link(s) were extracted from the page — they will be auto-attached by save_brand_to_notion"
                   expected := some (JVal.jnum links.length)
                   received := some (JVal.jnum 0) }]
              else
                [{ field := "catalogs"
                   severity := Severity.warning
                   message := toString catalogs.length ++
                     " catalog(s) present but none have downloadUrl — download links may have been dropped" }]
            | none =>
              [{ field := "catalogs"
                 severity := Severity.warning
                 message := toString catalogs.length ++
                   " catalog(s) present but none have downloadUrl — download links may have been dropped" }]
          else []

/-- The full issue list of `executeValidateBrandData`: the fixed battery of
checks, run in source order and concatenated. -/
def validationIssues (distCache : String → Option (List ParsedDistributor))
    (catalogCache : String → Option (List ParsedCatalogLink))
    (scrapeResult : ScrapeResultInput) (brandData : BrandData) : List ValidationIssue :=
  let contactDetails := scrapeResult.contactDetails.getD []
  checkContactField contactDetails "phone" "phone" "Phone" brandData.phone ++
    checkEmailField contactDetails brandData ++
    checkContactField contactDetails "street" "street" "Street" brandData.street ++
    checkContactField contactDetails "city" "city" "City" brandData.city ++
    checkContactField contactDetails "zip" "postalCode" "Postal code" brandData.postalCode ++
    checkContactField contactDetails "lat" "latitude" "Latitude" brandData.latitude ++
    checkContactField contactDetails "lng" "longitude" "Longitude" brandData.longitude ++
    checkContactField contactDetails "website" "website" "Website" brandData.website ++
    checkContactField contactDetails "facebook" "facebook" "Facebook" brandData.facebook ++
    checkContactField contactDetails "instagram" "instagram" "Instagram" brandData.instagram ++
    checkContactField contactDetails "pinterest" "pinterest" "Pinterest" brandData.pinterest ++
    checkHeaderImageFallback scrapeResult.metadata brandData ++
    checkImageUrls scrapeResult.extractedImageUrls brandData ++
    checkDistributors distCache scrapeResult.parsedDistributors brandData ++
    checkDescriptionPresent scrapeResult.markdown brandData ++
    checkCatalogsPresent catalogCache scrapeResult.markdown brandData

/-- Result assembly of `executeValidateBrandData`: tallies by severity,
`valid` iff no errors, and the human summary sentence. -/
def assembleValidationResult (issues : List ValidationIssue) : ValidationResult :=
  let errorCount := (issues.filter (fun i => i.severity == Severity.error)).length
  let warningCount := (issues.filter (fun i => i.severity == Severity.warning)).length
  let valid := errorCount == 0
  let summary :=
    if issues.isEmpty then "All checks passed. No dropped fields detected."
    else
      String.intercalate "; "
        ((if errorCount > 0 then
            [toString errorCount ++ " error(s) — fields that MUST be fixed"]
          else []) ++
         (if warningCount > 0 then
            [toString warningCount ++ " warning(s) — review recommended"]
          else []))
  { valid := valid
    errorCount := errorCount
    warningCount := warningCount
    issues := issues
    summary := summary }

/-- `executeValidateBrandData` of `validation.js`: runs the fixed battery of
checks in order and assembles the `ValidationResult`.  The two module-level
caches it may consult are explicit parameters; the JSON round-trip of the
source (stringify then parse) is omitted as pure plumbing. -/
def executeValidateBrandData (distCache : String → Option (List ParsedDistributor))
    (catalogCache : String → Option (List ParsedCatalogLink))
    (scrapeResult : ScrapeResultInput) (brandData : BrandData) : ValidationResult :=
  assembleValidationResult (validationIssues distCache catalogCache scrapeResult brandData)

/-! ## Session store (`brands.js`)

`Map` state is modeled as a list of entries in insertion order (JS `Map`
iteration order); `Date.now()` and `randomUUID()` are explicit parameters.
Deep copies on write and read are value semantics in Lean. -/

/-- `BRAND_SCRAPE_SESSION_TTL_MS`: 60 minutes. -/
def BRAND_SCRAPE_SESSION_TTL_MS : Int := 60 * 60 * 1000

/-- `BRAND_SCRAPE_SESSION_MAX_ENTRIES`. -/
def BRAND_SCRAPE_SESSION_MAX_ENTRIES : Nat := 300

/-- `BrandScrapeSessionSnapshot` of `brands.js`. -/
structure BrandScrapeSessionSnapshot where
  scrapeSessionId : String
  architonicUrl : String
  createdAt : Int
  contactDetails : FieldBag
  parsedDistributors : List ParsedDistributor
  parsedCatalogLinks : List ParsedCatalogLink
  extractedImageUrls : ExtractedImageUrls
  markdown : Option String := none
  links : Option (List String) := none
  metadata : Option MetadataInput := none
deriving DecidableEq, Repr

/-- Input of `createBrandScrapeSession`
(`Omit<BrandScrapeSessionSnapshot, "scrapeSessionId" | "createdAt">`). -/
structure BrandScrapeSessionInput where
  architonicUrl : String
  contactDetails : FieldBag
  parsedDistributors : List ParsedDistributor
  parsedCatalogLinks : List ParsedCatalogLink
  extractedImageUrls : ExtractedImageUrls
  markdown : Option String := none
  links : Option (List String) := none
  metadata : Option MetadataInput := none
deriving DecidableEq, Repr

/-- Minimum of a timestamp projection over a list (0 on the empty list, which
the callers never hit). -/
def minKey (f : α → Int) : List α → Int
  | [] => 0
  | x :: rest => rest.foldl (fun m y => min m (f y)) (f x)

/-- Removes the first entry whose timestamp equals `t`. -/
def eraseFirstKey (f : α → Int) (t : Int) : List α → List α
  | [] => []
  | x :: rest => if f x == t then rest else x :: eraseFirstKey f t rest

/-- Removes `n` entries, each time the earliest-inserted entry with the
minimal timestamp: exactly the first `n` entries of the stable
sort-by-timestamp that both prune functions of the source delete. -/
def removeOldestBy (f : α → Int) : Nat → List α → List α
  | 0, l => l
  | n + 1, l => removeOldestBy f n (eraseFirstKey f (minKey f l) l)

/-- Shared shape of `pruneBrandScrapeSessionCache` and
`pruneMatterbaseCreatePayloadCache`: drop entries older than `ttl`, then if
still above `maxEntries` drop oldest-created first. -/
def pruneByAge (f : α → Int) (ttl : Int) (maxEntries : Nat) (now : Int)
    (l : List α) : List α :=
  let fresh := l.filter (fun x => !(decide (now - f x > ttl)))
  if fresh.length ≤ maxEntries then fresh
  else removeOldestBy f (fresh.length - maxEntries) fresh

/-- `pruneBrandScrapeSessionCache` of `brands.js`. -/
def pruneBrandScrapeSessionCache (now : Int) (store : List BrandScrapeSessionSnapshot) :
    List BrandScrapeSessionSnapshot :=
  pruneByAge (fun s => s.createdAt) BRAND_SCRAPE_SESSION_TTL_MS
    BRAND_SCRAPE_SESSION_MAX_ENTRIES now store

/-- JS `Map.set` on the session store: replace the entry with the same key in
place, else append. -/
def sessionStoreSet (store : List BrandScrapeSessionSnapshot)
    (snap : BrandScrapeSessionSnapshot) : List BrandScrapeSessionSnapshot :=
  if store.any (fun s => s.scrapeSessionId == snap.scrapeSessionId) then
    store.map (fun s => if s.scrapeSessionId == snap.scrapeSessionId then snap else s)
  else store ++ [snap]

/-- The snapshot stored by `createBrandScrapeSession` (spreads are deep
copies; value semantics here). -/
def mkBrandScrapeSessionSnapshot (scrapeSessionId : String) (now : Int)
    (input : BrandScrapeSessionInput) : BrandScrapeSessionSnapshot :=
  { scrapeSessionId := scrapeSessionId
    createdAt := now
    architonicUrl := input.architonicUrl
    contactDetails := input.contactDetails
    parsedDistributors := input.parsedDistributors
    parsedCatalogLinks := input.parsedCatalogLinks
    extractedImageUrls := input.extractedImageUrls
    markdown := input.markdown
    links := input.links
    metadata := input.metadata }

/-- `createBrandScrapeSession` of `brands.js`; `Date.now()` and the
`randomUUID()` result are the explicit `now` and `newId` parameters.  Prunes,
inserts the fresh snapshot, prunes again, and returns the id with the new
store state. -/
def createBrandScrapeSession (now : Int) (newId : String)
    (input : BrandScrapeSessionInput) (store : List BrandScrapeSessionSnapshot) :
    String × List BrandScrapeSessionSnapshot :=
  let pruned := pruneBrandScrapeSessionCache now store
  let snapshot := mkBrandScrapeSessionSnapshot newId now input
  (newId, pruneBrandScrapeSessionCache now (sessionStoreSet pruned snapshot))

/-- `getBrandScrapeSession` of `brands.js`: prune first (lazy expiry), then
return the match or `none`; an entry found but past TTL is deleted and
reported as `none`.  Returns the session (a deep copy in the source) together
with the store state after the read. -/
def getBrandScrapeSession (now : Int) (scrapeSessionId : String)
    (store : List BrandScrapeSessionSnapshot) :
    Option BrandScrapeSessionSnapshot × List BrandScrapeSessionSnapshot :=
  let pruned := pruneBrandScrapeSessionCache now store
  match pruned.find? (fun s => s.scrapeSessionId == scrapeSessionId) with
  | none => (none, pruned)
  | some snapshot =>
    if now - snapshot.createdAt > BRAND_SCRAPE_SESSION_TTL_MS then
      (none, pruned.eraseP (fun s => s.scrapeSessionId == scrapeSessionId))
    else (some snapshot, pruned)

/-! ## Catalog-link extraction (`executeScrapeBrand` of `brands.js`) -/

/-- Substring test on character lists. -/
def hasSubstr (pat : List Char) : List Char → Bool
  | [] => pat.isEmpty
  | c :: rest => pat.isPrefixOf (c :: rest) || hasSubstr pat rest

/-- The filter `/\/(catalog|download|pdf|brochure)/i.test(link) ||
link.endsWith(".pdf")` applied to each fetched link. -/
def catalogLinkTest (link : String) : Bool :=
  ["/catalog", "/download", "/pdf", "/brochure"].any
    (fun kw => hasSubstr kw.data (strToLower link).data) ||
  strEndsWith link ".pdf"

/-- The `parsedCatalogLinks` list built by `executeScrapeBrand` from the
fetch's link list: filter, then map each link to `{ url, filename }` with
`filename = link.split("/").pop()`. -/
def parsedCatalogLinksOfLinks (links : Option (List String)) : List ParsedCatalogLink :=
  ((links.getD []).filter catalogLinkTest).map
    (fun link => { url := link, filename := (splitOnChar '/' link).getLast? })

/-! ## Plausibility filters (`brands.js`) -/

/-- Index of the first occurrence of a character. -/
def idxOfChar (c : Char) : List Char → Option Nat
  | [] => none
  | x :: rest => if x == c then some 0 else (idxOfChar c rest).map (fun i => i + 1)

/-- `isPlausibleEmail` of `brands.js`: at least one character before the first
`@`, and a domain containing a `.` whose first occurrence is not the final
character. -/
def isPlausibleEmail (value : String) : Bool :=
  let trimmed := (strTrim value).data
  if trimmed.isEmpty then false
  else
    match idxOfChar '@' trimmed with
    | none => false
    | some atIdx =>
      if atIdx < 1 then false
      else
        let domain := trimmed.drop (atIdx + 1)
        match idxOfChar '.' domain with
        | none => false
        | some dotIdx => decide (dotIdx < domain.length - 1)

/-- `isPlausibleContactString` of `brands.js`: at least 2 characters, no
structural brace/bracket characters, not a URL, not an email, not purely
numeric. -/
def isPlausibleContactString (value : String) : Bool :=
  let t := strTrim value
  if t.length < 2 then false
  else if t.data.any
      (fun c => c == Char.ofNat 123 || c == Char.ofNat 125 || c == '[' || c == ']') then
    false
  else if ["http:", "http/", "https:", "https/"].any (fun p => strStartsWith (strToLower t) p) ||
      strStartsWith (strToLower t) "www." then
    false
  else if t.data.contains '@' then false
  else if !t.data.isEmpty && t.data.all Char.isDigit then false
  else true

/-! ## Save gate (`notion-tools.ts`): data model and helpers -/

/-- `ALLOWED_SAVE_FIELDS` of `notion-tools.ts`. -/
def ALLOWED_SAVE_FIELDS : List String :=
  ["name", "architonicUrl", "scrapeSessionId", "countryCode", "countryName",
   "companyName", "productType", "excludedCountries", "isDisabled",
   "contactName", "contactJobTitle", "contactEmail", "hunterContacts"]

/-- `DISALLOWED_SCRAPED_FIELDS` of `notion-tools.ts`. -/
def DISALLOWED_SCRAPED_FIELDS : List String :=
  ["website", "logoUrl", "architonicId", "companyType", "street", "city",
   "postalCode", "phone", "email", "latitude", "longitude", "facebook",
   "instagram", "pinterest", "description", "catalogs", "distributors",
   "headerImageUrl", "aboutImageUrl", "stories", "similarBrands", "collections"]

/-- `RETRYABLE_MATTERBASE_CREATE_FIELDS` of `notion-tools.ts`. -/
def RETRYABLE_MATTERBASE_CREATE_FIELDS : List String :=
  ["productType", "countryCode", "countryName", "contactEmail"]

/-- `MatterbaseExcludedCountry`. -/
structure MatterbaseExcludedCountry where
  code : String
  name : String
deriving DecidableEq, Repr

/-- `HunterContact` of `notion-tools.ts` (enrichment only; never the primary
contact source). -/
structure HunterContact where
  email : String
  firstName : Option String := none
  lastName : Option String := none
  position : Option String := none
  confidence : Option Int := none
  type : Option String := none
  linkedin : Option String := none
  phone : Option String := none
  verified : Option Bool := none
  verificationStatus : Option String := none
deriving DecidableEq, Repr

/-- `SaveBrandArgs` of `notion-tools.ts` (the declared input type of
`executeSaveBrandToNotion`; the tool schema declares every scraped field as
`z.never()`, so arguments reaching the function carry only these keys). -/
structure SaveBrandArgs where
  name : String
  architonicUrl : String
  scrapeSessionId : String
  countryCode : Option String := none
  countryName : Option String := none
  companyName : Option String := none
  productType : Option (List String) := none
  excludedCountries : Option (List MatterbaseExcludedCountry) := none
  isDisabled : Option Bool := none
  contactName : Option String := none
  contactJobTitle : Option String := none
  contactEmail : Option String := none
  hunterContacts : Option (List HunterContact) := none
deriving DecidableEq, Repr

/-- The runtime property keys of a `SaveBrandArgs` value (optional properties
are present exactly when supplied). -/
def saveArgsRawKeys (args : SaveBrandArgs) : List String :=
  ["name", "architonicUrl", "scrapeSessionId"] ++
  (if args.countryCode.isSome then ["countryCode"] else []) ++
  (if args.countryName.isSome then ["countryName"] else []) ++
  (if args.companyName.isSome then ["companyName"] else []) ++
  (if args.productType.isSome then ["productType"] else []) ++
  (if args.excludedCountries.isSome then ["excludedCountries"] else []) ++
  (if args.isDisabled.isSome then ["isDisabled"] else []) ++
  (if args.contactName.isSome then ["contactName"] else []) ++
  (if args.contactJobTitle.isSome then ["contactJobTitle"] else []) ++
  (if args.contactEmail.isSome then ["contactEmail"] else []) ++
  (if args.hunterContacts.isSome then ["hunterContacts"] else [])

/-- `findDisallowedInputFields` of `notion-tools.ts`. -/
def findDisallowedInputFields (rawKeys : List String) : List String :=
  DISALLOWED_SCRAPED_FIELDS.filter (fun field => rawKeys.contains field)

/-- `toNonEmptyString` of `notion-tools.ts` on an optional string: trim and
keep only non-empty results. -/
def toNonEmptyString : Option String → Option String
  | none => none
  | some s => let t := strTrim s; if t == "" then none else some t

/-- `toNonEmptyString` applied to a loose field-bag value (non-strings map to
`undefined`). -/
def toNonEmptyStringJ : Option JVal → Option String
  | some (JVal.jstr s) => toNonEmptyString (some s)
  | _ => none

/-- JS `Number(...)` on a string, restricted to the integer value model:
the empty/whitespace string parses to 0 (as in JS), an optionally signed
run of decimal digits to its value; non-integer numeric strings are outside
the model and map to `none`. -/
def parseJsNumber (s : String) : Option Int :=
  let t := (strTrim s).data
  if t.isEmpty then some 0
  else
    match t with
    | '-' :: ds =>
      if !ds.isEmpty && ds.all Char.isDigit then some (-(Int.ofNat (digitsToNat ds)))
      else none
    | '+' :: ds =>
      if !ds.isEmpty && ds.all Char.isDigit then some (Int.ofNat (digitsToNat ds))
      else none
    | ds =>
      if ds.all Char.isDigit then some (Int.ofNat (digitsToNat ds)) else none

/-- `toOptionalNumber` of `notion-tools.ts` on a loose value.  Numbers pass
through; numeric strings go through JS `Number(...)`. -/
def toOptionalNumber : Option JVal → Option Int
  | some (JVal.jnum n) => some n
  | some (JVal.jstr s) => parseJsNumber s
  | none => none

/-- `firstNonEmptyString` of `notion-tools.ts` over loose values. -/
def firstNonEmptyStringJ : List (Option JVal) → Option String
  | [] => none
  | v :: rest =>
    match toNonEmptyStringJ v with
    | some s => some s
    | none => firstNonEmptyStringJ rest

/-- Result of `resolveScrapedPrimaryContact`. -/
structure ScrapedPrimaryContact where
  contactName : Option String := none
  contactJobTitle : Option String := none
  contactEmail : Option String := none
deriving DecidableEq, Repr

/-- `resolveScrapedPrimaryContact` of `notion-tools.ts`: pick the first
plausible scraped candidate for each of name, job title and email. -/
def resolveScrapedPrimaryContact (contactDetails : FieldBag) : ScrapedPrimaryContact :=
  let rawName := firstNonEmptyStringJ
    [bagGet contactDetails "contactName", bagGet contactDetails "contactPerson",
     bagGet contactDetails "contactFullName"]
  let rawJobTitle := firstNonEmptyStringJ
    [bagGet contactDetails "contactJobTitle", bagGet contactDetails "contactTitle",
     bagGet contactDetails "contactRole", bagGet contactDetails "jobTitle",
     bagGet contactDetails "position", bagGet contactDetails "role"]
  let rawEmail := firstNonEmptyStringJ
    [bagGet contactDetails "email", bagGet contactDetails "contactEmail"]
  { contactName :=
      match rawName with
      | some n => if isPlausibleContactString n then some n else none
      | none => none
    contactJobTitle :=
      match rawJobTitle with
      | some j => if isPlausibleContactString j then some j else none
      | none => none
    contactEmail :=
      match rawEmail with
      | some e => if isPlausibleEmail e then some e else none
      | none => none }

/-- Tail test of the `parseArchitonicId` regex `/\/(\d+)(?:\/?(?:\?.*)?)?$/`:
after the digits the URL may only end, end after `/`, or continue with a
query string (optionally after `/`). -/
def archIdTail : List Char → Bool
  | [] => true
  | '?' :: _ => true
  | ['/'] => true
  | '/' :: '?' :: _ => true
  | _ => false

/-- One attempt of the `parseArchitonicId` regex at the current position. -/
def archIdAt : List Char → Option String
  | '/' :: rest =>
    let ds := rest.takeWhile Char.isDigit
    if ds.isEmpty then none
    else if archIdTail (rest.drop ds.length) then some (String.mk ds)
    else none
  | _ => none

/-- Scan for the leftmost match of the `parseArchitonicId` regex. -/
def parseArchitonicIdAux : List Char → Option String
  | [] => none
  | c :: rest =>
    match archIdAt (c :: rest) with
    | some id => some id
    | none => parseArchitonicIdAux rest

/-- `parseArchitonicId` of `notion-tools.ts`: the trailing numeric path
segment of the source URL. -/
def parseArchitonicId (url : String) : Option String :=
  parseArchitonicIdAux url.data

/-- `resolveHeaderImageUrl` of `notion-tools.ts`: prefer the extracted header
image; otherwise fall back to the metadata `ogImage` with its query string
stripped, unless that image is a logo image. -/
def resolveHeaderImageUrl (extractedHeaderImageUrl : Option String)
    (metadata : Option MetadataInput) : Option String :=
  match toNonEmptyString extractedHeaderImageUrl with
  | some extracted => some extracted
  | none =>
    match toNonEmptyString (metadata.bind (fun m => m.ogImage)) with
    | none => none
    | some fallbackOgImage =>
      let sanitizedOgImage := (splitOnChar '?' fallbackOgImage).headD fallbackOgImage
      if hasSubstr "/logo/".data (strToLower sanitizedOgImage).data then none
      else some sanitizedOgImage

/-- `normalizeProductTypes` of `notion-tools.ts`: keep only known product
types, deduplicated keeping first occurrences. -/
def normalizeProductTypes (input : Option (List String)) : List String :=
  match input with
  | none => []
  | some l =>
    (l.foldl
      (fun (acc : List String) item =>
        if ["material", "furniture", "lighting", "hardware"].contains item then
          if acc.contains item then acc else acc ++ [item]
        else acc)
      [])

/-- `normalizeExcludedCountries` of `notion-tools.ts`: drop entries without a
code and name, upper-case codes, and deduplicate by upper-cased code plus
lower-cased name. -/
def normalizeExcludedCountries (input : Option (List MatterbaseExcludedCountry)) :
    List MatterbaseExcludedCountry :=
  match input with
  | none => []
  | some l =>
    ((l.foldl
      (fun (st : List String × List MatterbaseExcludedCountry) item =>
        match toNonEmptyString (some item.code), toNonEmptyString (some item.name) with
        | some code, some name =>
          let key := strToUpper code ++ "::" ++ strToLower name
          if st.1.contains key then st
          else (st.1 ++ [key], st.2 ++ [{ code := strToUpper code, name := name }])
        | _, _ => st)
      ([], []))).2

/-! ## Markdown description extraction (`extractDescriptionFromMarkdown`) -/

/-- Generic scanner for a global regex replace: at each position try the
matcher; on a match emit its replacement and continue after the consumed
text, else emit the character and advance.  Every matcher consumes at least
one character, so fuel equal to the input length never runs out. -/
def scanReplace (step : List Char → Option (List Char × List Char)) :
    Nat → List Char → List Char
  | 0, _ => []
  | _ + 1, [] => []
  | fuel + 1, c :: rest =>
    match step (c :: rest) with
    | some (out, r) => out ++ scanReplace step fuel r
    | none => c :: scanReplace step fuel rest

/-- Matcher for `/!\[[^\]]*]\([^)]+\)/` (markdown images), replaced by a
space. -/
def imageStep : List Char → Option (List Char × List Char)
  | '!' :: '[' :: r =>
    match r.dropWhile (fun c => c != ']') with
    | ']' :: '(' :: r2 =>
      let url := r2.takeWhile (fun c => c != ')')
      if url.isEmpty then none
      else
        match r2.drop url.length with
        | ')' :: r3 => some ([' '], r3)
        | _ => none
    | _ => none
  | _ => none

/-- Matcher for `/\[([^\]]+)\]\([^)]+\)/` (markdown links), replaced by the
link label. -/
def linkStep : List Char → Option (List Char × List Char)
  | '[' :: r =>
    let label := r.takeWhile (fun c => c != ']')
    if label.isEmpty then none
    else
      match r.drop label.length with
      | ']' :: '(' :: r2 =>
        let url := r2.takeWhile (fun c => c != ')')
        if url.isEmpty then none
        else
          match r2.drop url.length with
          | ')' :: r3 => some (label, r3)
          | _ => none
      | _ => none
  | _ => none

/-- Matcher for inline code spans (backtick-delimited, possibly empty),
replaced by their contents. -/
def codeStep (l : List Char) : Option (List Char × List Char) :=
  match l with
  | c :: r =>
    if c == Char.ofNat 96 then
      let inner := r.takeWhile (fun ch => ch != Char.ofNat 96)
      match r.drop inner.length with
      | b :: r2 => if b == Char.ofNat 96 then some (inner, r2) else none
      | [] => none
    else none
  | [] => none

/-- Line-start-anchored global replace by the empty string (for the `/^.../gm`
passes): the matcher runs only at line starts and reports whether the last
consumed character was a newline. -/
def scanLineStarts (step : List Char → Option (List Char × Bool)) :
    Nat → Bool → List Char → List Char
  | 0, _, _ => []
  | _ + 1, _, [] => []
  | fuel + 1, atStart, c :: rest =>
    if atStart then
      match step (c :: rest) with
      | some (r, nl) => scanLineStarts step fuel nl r
      | none => c :: scanLineStarts step fuel (c == '\n') rest
    else c :: scanLineStarts step fuel (c == '\n') rest

/-- Matcher for `/^>\s?/m`: a quote marker and at most one following
whitespace character. -/
def quoteStep : List Char → Option (List Char × Bool)
  | '>' :: r =>
    match r with
    | w :: r2 => if w.isWhitespace then some (r2, w == '\n') else some (r, false)
    | [] => some ([], false)
  | _ => none

/-- Matcher for `/^\s*[-*+]\s+/m`: optional whitespace, a bullet marker, and
at least one whitespace character. -/
def bulletStep (l : List Char) : Option (List Char × Bool) :=
  let ws := l.takeWhile Char.isWhitespace
  match l.drop ws.length with
  | m :: r2 =>
    if m == '-' || m == '*' || m == '+' then
      let ws2 := r2.takeWhile Char.isWhitespace
      if ws2.isEmpty then none
      else some (r2.drop ws2.length, ws2.getLast? == some '\n')
    else none
  | [] => none

/-- Matcher for `/^\s*\d+\.\s+/m`: optional whitespace, a numbered-list
marker, and at least one whitespace character. -/
def numberStep (l : List Char) : Option (List Char × Bool) :=
  let ws := l.takeWhile Char.isWhitespace
  let r1 := l.drop ws.length
  let ds := r1.takeWhile Char.isDigit
  if ds.isEmpty then none
  else
    match r1.drop ds.length with
    | '.' :: r2 =>
      let ws2 := r2.takeWhile Char.isWhitespace
      if ws2.isEmpty then none
      else some (r2.drop ws2.length, ws2.getLast? == some '\n')
    | _ => none

/-- The `/\s+/g → " "` collapse: each maximal whitespace run becomes a single
space (the flag records whether the previous character was whitespace). -/
def collapseWsAux : List Char → Bool → List Char
  | [], _ => []
  | c :: rest, prevWs =>
    if c.isWhitespace then
      if prevWs then collapseWsAux rest true else ' ' :: collapseWsAux rest true
    else c :: collapseWsAux rest false

/-- `normalizeDescriptionText` of `notion-tools.ts`: strip markdown images,
links, inline code, formatting characters, quote and list markers; collapse
whitespace; trim; cap at 1800 characters with an ellipsis. -/
def normalizeDescriptionText (raw : String) : Option String :=
  let l0 := raw.data
  let l1 := scanReplace imageStep l0.length l0
  let l2 := scanReplace linkStep l1.length l1
  let l3 := scanReplace codeStep l2.length l2
  let l4 := l3.filter (fun c => !(c == '*' || c == '_' || c == '~'))
  let l5 := scanLineStarts quoteStep l4.length true l4
  let l6 := scanLineStarts bulletStep l5.length true l5
  let l7 := scanLineStarts numberStep l6.length true l6
  let collapsed := strTrim (String.mk (collapseWsAux l7 false))
  if collapsed == "" then none
  else if collapsed.length > 1800 then some (String.mk (collapsed.data.take 1797) ++ "...")
  else some collapsed

/-- JS word-character class `\w`. -/
def isWordChar (c : Char) : Bool :=
  c.isAlpha || c.isDigit || c == '_'

/-- Keyword (with trailing `\b` word boundary) test of the description
heading pattern, case-insensitive. -/
def descKeywordWithBoundaryAt (l : List Char) : Bool :=
  ["about", "philosophy", "company", "who we are", "our story"].any
    (fun kw =>
      kw.data.isPrefixOf (l.map Char.toLower) &&
      (match l.drop kw.length with
       | [] => true
       | c :: _ => !(isWordChar c)))

/-- The anchored test
`/^#{1,3}\s*(about|philosophy|company|who we are|our story)\b/i` on a trimmed
line. -/
def headingPatternTest (line : String) : Bool :=
  let t := (strTrim line).data
  let h := (t.takeWhile (fun c => c == '#')).length
  if h < 1 || h > 3 then false
  else descKeywordWithBoundaryAt ((t.drop h).dropWhile Char.isWhitespace)

/-- The anchored test `/^#{1,6}\s+/` on a trimmed line. -/
def anyHeadingPatternTest (line : String) : Bool :=
  let t := (strTrim line).data
  let h := (t.takeWhile (fun c => c == '#')).length
  if h < 1 || h > 6 then false
  else
    match t.drop h with
    | c :: _ => c.isWhitespace
    | [] => false

/-- The line scan of `extractDescriptionFromMarkdown`: at each heading line,
normalize the section up to the next heading; return the first non-empty
result. -/
def extractSectionLoop : List String → Option String
  | [] => none
  | line :: rest =>
    if headingPatternTest line then
      let sectionLines := rest.takeWhile (fun j => !(anyHeadingPatternTest j))
      match normalizeDescriptionText (String.intercalate "\n" sectionLines) with
      | some sectionText => some sectionText
      | none => extractSectionLoop rest
    else extractSectionLoop rest

/-- `extractDescriptionFromMarkdown` of `notion-tools.ts`. -/
def extractDescriptionFromMarkdown (markdown : Option String) : Option String :=
  match markdown with
  | none => none
  | some md0 =>
    if md0 == "" then none
    else
      let normalizedMarkdown := strTrim (String.mk (crlfToLf md0.data))
      if normalizedMarkdown == "" then none
      else extractSectionLoop (splitOnChar '\n' normalizedMarkdown)

/-! ## Catalog derivation (`deriveCatalogs` of `notion-tools.ts`) -/

/-- `Catalog` of `notion-tools.ts`. -/
structure Catalog where
  title : String
  year : Option String := none
  language : Option String := none
  downloadUrl : Option String := none
  previewUrl : Option String := none
deriving DecidableEq, Repr

/-- `safeDecode`: `decodeURIComponent` is a JS runtime builtin, modeled as an
explicit partial function parameter (`none` models a decode error, caught and
discarded by the source). -/
def safeDecode (decodeUri : String → Option String) (value : String) : String :=
  (decodeUri value).getD value

/-- The `/\.[a-z0-9]{2,5}$/i` extension strip of `inferCatalogTitle` (only
the final dot can start a match that reaches the end of the string). -/
def stripExtension (raw : List Char) : List Char :=
  let revTail := raw.reverse.takeWhile (fun c => c != '.')
  if revTail.length == raw.length then raw
  else
    let extLen := revTail.length
    if 2 ≤ extLen && extLen ≤ 5 && revTail.all (fun c => c.isAlpha || c.isDigit) then
      raw.take (raw.length - extLen - 1)
    else raw

/-- The `/[\-_]+/g → " "` replace of `inferCatalogTitle`. -/
def dashRunsToSpace : List Char → Bool → List Char
  | [], _ => []
  | c :: rest, prevDash =>
    if c == '-' || c == '_' then
      if prevDash then dashRunsToSpace rest true else ' ' :: dashRunsToSpace rest true
    else c :: dashRunsToSpace rest false

/-- `inferCatalogTitle` of `notion-tools.ts`. -/
def inferCatalogTitle (decodeUri : String → Option String) (link : ParsedCatalogLink) :
    String :=
  let fromUrl := ((splitOnChar '/' link.url).getLast?).getD ""
  let raw :=
    match link.filename with
    | some f => if f != "" then f else (if fromUrl != "" then fromUrl else "Catalog")
    | none => if fromUrl != "" then fromUrl else "Catalog"
  let withoutExt := String.mk (stripExtension raw.data)
  let normalized :=
    strTrim (String.mk (collapseWsAux (dashRunsToSpace (safeDecode decodeUri withoutExt).data false) false))
  if normalized == "" then "Catalog" else normalized

/-- `deriveCatalogs` of `notion-tools.ts`: one catalog per distinct non-empty
link URL, in order, with inferred titles; `none` when nothing remains. -/
def deriveCatalogs (decodeUri : String → Option String)
    (catalogLinks : List ParsedCatalogLink) : Option (List Catalog) :=
  if catalogLinks.isEmpty then none
  else
    let catalogs :=
      (catalogLinks.foldl
        (fun (st : List String × List Catalog) link =>
          if link.url == "" || st.1.contains link.url then st
          else
            (st.1 ++ [link.url],
             st.2 ++ [{ title := inferCatalogTitle decodeUri link
                        downloadUrl := some link.url }]))
        ([], [])).2
    if catalogs.isEmpty then none else some catalogs

/-! ## Resolved record and deferred create payload (`notion-tools.ts`) -/

/-- JS `a || b` on optional strings (empty strings are falsy). -/
def jsOrS (a b : Option String) : Option String :=
  if strFilled a then a else b

/-- `ResolvedBrandData` of `notion-tools.ts`.  `scrapedAt` keeps the epoch
timestamp of the snapshot; its ISO rendering in the source is presentation
only. -/
structure ResolvedBrandData where
  name : String
  architonicUrl : String
  scrapeSessionId : String
  architonicId : Option String := none
  countryCode : Option String := none
  description : Option String := none
  website : Option String := none
  logoUrl : Option String := none
  contactName : Option String := none
  contactJobTitle : Option String := none
  contactEmail : Option String := none
  street : Option String := none
  city : Option String := none
  postalCode : Option String := none
  phone : Option String := none
  email : Option String := none
  latitude : Option Int := none
  longitude : Option Int := none
  facebook : Option String := none
  instagram : Option String := none
  pinterest : Option String := none
  catalogs : Option (List Catalog) := none
  distributors : Option (List ParsedDistributor) := none
  hunterContacts : Option (List HunterContact) := none
  headerImageUrl : Option String := none
  aboutImageUrl : Option String := none
  scrapedAt : Int
deriving DecidableEq, Repr

/-- `buildResolvedBrandData` of `notion-tools.ts`: combine the session's
ground-truth extraction (preferring richer-by-count cached distributor and
catalog lists, and cached image URLs as fallbacks) with the caller's allowed
enrichment fields. -/
def buildResolvedBrandData
    (distCache : String → Option (List ParsedDistributor))
    (catalogCache : String → Option (List ParsedCatalogLink))
    (imageCache : String → Option ExtractedImageUrls)
    (decodeUri : String → Option String)
    (args : SaveBrandArgs) (snapshot : BrandScrapeSessionSnapshot) : ResolvedBrandData :=
  let contactDetails := snapshot.contactDetails
  let scrapedPrimaryContact := resolveScrapedPrimaryContact contactDetails
  let cachedDistributors := (distCache args.architonicUrl).getD []
  let resolvedDistributors :=
    if cachedDistributors.length > snapshot.parsedDistributors.length then
      cachedDistributors
    else snapshot.parsedDistributors
  let cachedCatalogLinks := (catalogCache args.architonicUrl).getD []
  let resolvedCatalogLinks :=
    if cachedCatalogLinks.length > snapshot.parsedCatalogLinks.length then
      cachedCatalogLinks
    else snapshot.parsedCatalogLinks
  let cachedImages := imageCache args.architonicUrl
  let logoUrl := jsOrS snapshot.extractedImageUrls.logoUrl
    (cachedImages.bind (fun i => i.logoUrl))
  let headerImageUrl := jsOrS snapshot.extractedImageUrls.headerImageUrl
    (cachedImages.bind (fun i => i.headerImageUrl))
  let aboutImageUrl := jsOrS snapshot.extractedImageUrls.aboutImageUrl
    (cachedImages.bind (fun i => i.aboutImageUrl))
  let companyEmail := toNonEmptyStringJ (bagGet contactDetails "email")
  { name := args.name
    architonicUrl := args.architonicUrl
    scrapeSessionId := args.scrapeSessionId
    architonicId := parseArchitonicId args.architonicUrl
    countryCode := toNonEmptyString args.countryCode
    description := extractDescriptionFromMarkdown snapshot.markdown
    contactName := jsOrS scrapedPrimaryContact.contactName (toNonEmptyString args.contactName)
    contactJobTitle :=
      jsOrS scrapedPrimaryContact.contactJobTitle (toNonEmptyString args.contactJobTitle)
    contactEmail := jsOrS scrapedPrimaryContact.contactEmail (toNonEmptyString args.contactEmail)
    hunterContacts := args.hunterContacts
    street := toNonEmptyStringJ (bagGet contactDetails "street")
    city := toNonEmptyStringJ (bagGet contactDetails "city")
    postalCode := toNonEmptyStringJ (bagGet contactDetails "zip")
    phone := toNonEmptyStringJ (bagGet contactDetails "phone")
    email :=
      match companyEmail with
      | some e => if isPlausibleEmail e then some e else none
      | none => none
    latitude := toOptionalNumber (bagGet contactDetails "lat")
    longitude := toOptionalNumber (bagGet contactDetails "lng")
    website := toNonEmptyStringJ (bagGet contactDetails "website")
    facebook := toNonEmptyStringJ (bagGet contactDetails "facebook")
    instagram := toNonEmptyStringJ (bagGet contactDetails "instagram")
    pinterest := toNonEmptyStringJ (bagGet contactDetails "pinterest")
    logoUrl := toNonEmptyString logoUrl
    headerImageUrl := resolveHeaderImageUrl headerImageUrl snapshot.metadata
    aboutImageUrl := toNonEmptyString aboutImageUrl
    distributors :=
      if resolvedDistributors.length > 0 then some resolvedDistributors else none
    catalogs := deriveCatalogs decodeUri resolvedCatalogLinks
    scrapedAt := snapshot.createdAt }

/-- View of a ground-truth distributor as the loose record the validator
reads. -/
def toProposedDistributor (p : ParsedDistributor) : ProposedDistributor :=
  { name := some p.name, street := p.street, city := p.city, zip := p.zip,
    phone := p.phone, email := p.email, website := p.website }

/-- `toValidationBrandData` of `notion-tools.ts`: the projection of the
resolved record that is validated against the scrape output. -/
def toValidationBrandData (resolvedData : ResolvedBrandData) : BrandData :=
  { architonicUrl := some resolvedData.architonicUrl
    phone := resolvedData.phone.map JVal.jstr
    email := resolvedData.email.map JVal.jstr
    street := resolvedData.street.map JVal.jstr
    city := resolvedData.city.map JVal.jstr
    postalCode := resolvedData.postalCode.map JVal.jstr
    latitude := resolvedData.latitude.map JVal.jnum
    longitude := resolvedData.longitude.map JVal.jnum
    website := resolvedData.website.map JVal.jstr
    facebook := resolvedData.facebook.map JVal.jstr
    instagram := resolvedData.instagram.map JVal.jstr
    pinterest := resolvedData.pinterest.map JVal.jstr
    description := resolvedData.description.map JVal.jstr
    logoUrl := resolvedData.logoUrl.map JVal.jstr
    headerImageUrl := resolvedData.headerImageUrl.map JVal.jstr
    aboutImageUrl := resolvedData.aboutImageUrl.map JVal.jstr
    distributors := resolvedData.distributors.map (fun l => l.map toProposedDistributor)
    catalogs := resolvedData.catalogs.map
      (fun l => l.map (fun c => ({ downloadUrl := c.downloadUrl } : CatalogRef)))
    contactEmail := resolvedData.contactEmail.map JVal.jstr }

/-- `SavedMatterbaseCreatePayload` of `notion-tools.ts`; `savedAt` is the
epoch timestamp (the source stores its ISO rendering, and
`Date.parse(toISOString(t)) = t`). -/
structure SavedMatterbaseCreatePayload where
  notionPageId : String
  scrapeSessionId : String
  name : String
  companyName : String
  productType : List String
  countryCode : Option String := none
  countryName : Option String := none
  website : Option String := none
  contactName : String
  contactJobTitle : String
  contactEmail : Option String := none
  excludedCountries : List MatterbaseExcludedCountry
  isDisabled : Bool
  logoUrl : Option String := none
  savedAt : Int
deriving DecidableEq, Repr

/-- `buildSavedMatterbaseCreatePayload` of `notion-tools.ts`. -/
def buildSavedMatterbaseCreatePayload (now : Int) (notionPageId : String)
    (args : SaveBrandArgs) (resolvedData : ResolvedBrandData) :
    SavedMatterbaseCreatePayload :=
  let productType := normalizeProductTypes args.productType
  let excludedCountries := normalizeExcludedCountries args.excludedCountries
  let companyName := (toNonEmptyString args.companyName).getD resolvedData.name
  { notionPageId := notionPageId
    scrapeSessionId := args.scrapeSessionId
    name := resolvedData.name
    companyName := companyName
    productType := productType
    countryCode := toNonEmptyString args.countryCode
    countryName := toNonEmptyString args.countryName
    website := resolvedData.website
    contactName := resolvedData.contactName.getD ""
    contactJobTitle := resolvedData.contactJobTitle.getD "-"
    contactEmail := resolvedData.contactEmail
    excludedCountries := excludedCountries
    isDisabled := args.isDisabled.getD true
    logoUrl := resolvedData.logoUrl
    savedAt := now }

/-- `getMissingMatterbaseCreatePayloadFields` of `notion-tools.ts` (JS
falsiness of each required payload field, in source order). -/
def getMissingMatterbaseCreatePayloadFields (payload : SavedMatterbaseCreatePayload) :
    List String :=
  (if payload.name == "" then ["name"] else []) ++
  (if payload.companyName == "" then ["companyName"] else []) ++
  (if payload.productType.isEmpty then ["productType"] else []) ++
  (if !(strFilled payload.countryCode) then ["countryCode"] else []) ++
  (if !(strFilled payload.countryName) then ["countryName"] else []) ++
  (if !(strFilled payload.website) then ["website"] else []) ++
  (if !(strFilled payload.contactEmail) then ["contactEmail"] else [])

/-- Result of `splitMissingMatterbaseCreateFields`. -/
structure MissingFieldSplit where
  retryableMissingFields : List String
  nonRetryableMissingFields : List String
deriving DecidableEq, Repr

/-- `splitMissingMatterbaseCreateFields` of `notion-tools.ts`. -/
def splitMissingMatterbaseCreateFields (missingFields : List String) : MissingFieldSplit :=
  let st := missingFields.foldl
    (fun (st : List String × List String) field =>
      if RETRYABLE_MATTERBASE_CREATE_FIELDS.contains field then (st.1 ++ [field], st.2)
      else (st.1, st.2 ++ [field]))
    ([], [])
  { retryableMissingFields := st.1, nonRetryableMissingFields := st.2 }

/-! ## Deferred payload cache and the provenance-gated save -/

/-- `MATTERBASE_CREATE_PAYLOAD_TTL_MS`: 6 hours. -/
def MATTERBASE_CREATE_PAYLOAD_TTL_MS : Int := 6 * 60 * 60 * 1000

/-- `MATTERBASE_CREATE_PAYLOAD_MAX_ENTRIES`. -/
def MATTERBASE_CREATE_PAYLOAD_MAX_ENTRIES : Nat := 500

/-- State of the module-level `matterbaseCreatePayloadCache` map. -/
abbrev MatterbasePayloadCache := List (String × SavedMatterbaseCreatePayload)

/-- `pruneMatterbaseCreatePayloadCache` of `notion-tools.ts` (the
`Date.parse` NaN branch is unreachable with timestamps modeled as integers). -/
def pruneMatterbaseCreatePayloadCache (now : Int) (cache : MatterbasePayloadCache) :
    MatterbasePayloadCache :=
  pruneByAge (fun p => p.2.savedAt) MATTERBASE_CREATE_PAYLOAD_TTL_MS
    MATTERBASE_CREATE_PAYLOAD_MAX_ENTRIES now cache

/-- JS `Map.delete` on the payload cache. -/
def payloadCacheDelete (cache : MatterbasePayloadCache) (pageId : String) :
    MatterbasePayloadCache :=
  cache.eraseP (fun p => p.1 == pageId)

/-- JS `Map.set` on the payload cache. -/
def payloadCacheSet (cache : MatterbasePayloadCache) (pageId : String)
    (payload : SavedMatterbaseCreatePayload) : MatterbasePayloadCache :=
  if cache.any (fun p => p.1 == pageId) then
    cache.map (fun p => if p.1 == pageId then (pageId, payload) else p)
  else cache ++ [(pageId, payload)]

/-- `HunterEnrichmentResult` of `notion-tools.ts`. -/
structure HunterEnrichmentResult where
  contacts : List HunterContact
  source : String
  domain : Option String := none
  reason : Option String := none
deriving DecidableEq, Repr

/-- External collaborators and ambient state of one `executeSaveBrandToNotion`
call: the clock, the module-level extraction caches, the URI decoder builtin,
the configuration-gated contact-discovery enrichment (`resolveHunterContacts`
wraps the external Hunter service; claims never depend on its output), and
the page id minted by the document store on create. -/
structure SaveDeps where
  now : Int
  distCache : String → Option (List ParsedDistributor)
  catalogCache : String → Option (List ParsedCatalogLink)
  imageCache : String → Option ExtractedImageUrls
  decodeUri : String → Option String
  resolveHunter : Option (List HunterContact) → Option String → HunterEnrichmentResult
  newPageId : String

/-- Caller-visible outcome of the save gate, mirroring the JSON responses of
`executeSaveBrandToNotion` (`code` fields of the source). -/
inductive SaveOutcome where
  | disallowedFields (rejectedFields : List String)
  | sessionNotFound
  | urlMismatch (expectedArchitonicUrl receivedArchitonicUrl : String)
  | validationFailed (validation : ValidationResult)
  | nonRetryableMissingFields (notionPageId : String)
      (missingFields retryableMissingFields nonRetryableMissingFields : List String)
  | saveSuccess (notionPageId : String) (validation : ValidationResult)
      (missingFields retryableMissingFields nonRetryableMissingFields : List String)
deriving DecidableEq, Repr

/-- Outcome plus resulting cache states and external write effects of one
save call. -/
structure SaveBrandResult where
  outcome : SaveOutcome
  sessionStore : List BrandScrapeSessionSnapshot
  payloadCache : MatterbasePayloadCache
  persistedPage : Option String := none
  archivedPage : Option String := none
  failedIndexNote : Option String := none
deriving Repr

/-- The resolved record of the save: `buildResolvedBrandData` with the Hunter
enrichment result attached (`resolveHunterContacts` wraps the external
service). -/
def saveResolvedData (deps : SaveDeps) (args : SaveBrandArgs)
    (snapshot : BrandScrapeSessionSnapshot) : ResolvedBrandData :=
  let resolvedData0 := buildResolvedBrandData deps.distCache deps.catalogCache
    deps.imageCache deps.decodeUri args snapshot
  let hunterEnrichment := deps.resolveHunter args.hunterContacts resolvedData0.website
  { resolvedData0 with
    hunterContacts :=
      if hunterEnrichment.contacts.isEmpty then none
      else some hunterEnrichment.contacts }

/-- `scrapeResultForValidation` of `executeSaveBrandToNotion`: the session
snapshot repackaged as validator input. -/
def saveScrapeResultForValidation (snapshot : BrandScrapeSessionSnapshot) :
    ScrapeResultInput :=
  { contactDetails := some snapshot.contactDetails
    parsedDistributors := some snapshot.parsedDistributors
    distributorCount := some (Int.ofNat snapshot.parsedDistributors.length)
    markdown := snapshot.markdown
    links := snapshot.links
    metadata := snapshot.metadata
    extractedImageUrls := some snapshot.extractedImageUrls }

/-- The provenance validation run by the save. -/
def saveValidation (deps : SaveDeps) (args : SaveBrandArgs)
    (snapshot : BrandScrapeSessionSnapshot) : ValidationResult :=
  executeValidateBrandData deps.distCache deps.catalogCache
    (saveScrapeResultForValidation snapshot)
    (toValidationBrandData (saveResolvedData deps args snapshot))

/-- The deferred Matterbase create payload captured by the save. -/
def saveCreatePayload (deps : SaveDeps) (args : SaveBrandArgs)
    (snapshot : BrandScrapeSessionSnapshot) : SavedMatterbaseCreatePayload :=
  buildSavedMatterbaseCreatePayload deps.now deps.newPageId args
    (saveResolvedData deps args snapshot)

/-- The missing required payload fields computed by the save. -/
def saveMissingFields (deps : SaveDeps) (args : SaveBrandArgs)
    (snapshot : BrandScrapeSessionSnapshot) : List String :=
  getMissingMatterbaseCreatePayloadFields (saveCreatePayload deps args snapshot)

/-- `executeSaveBrandToNotion` of `notion-tools.ts`: reject disallowed caller
fields, resolve the session, enforce the source-URL match, build the resolved
record, validate it, persist, then capture the deferred Matterbase create
payload — rolling back (discard cache entry, archive page, mark index failed)
when a non-retryable field is missing.  The internal JSON stringify/parse
round-trip of the validation result is omitted as plumbing (it is lossless
for well-formed results). -/
def executeSaveBrandToNotion (deps : SaveDeps) (args : SaveBrandArgs)
    (sessionStore : List BrandScrapeSessionSnapshot)
    (payloadCache : MatterbasePayloadCache) : SaveBrandResult :=
  let disallowedFields := findDisallowedInputFields (saveArgsRawKeys args)
  if !disallowedFields.isEmpty then
    { outcome := SaveOutcome.disallowedFields disallowedFields
      sessionStore := sessionStore, payloadCache := payloadCache }
  else
    match getBrandScrapeSession deps.now args.scrapeSessionId sessionStore with
    | (none, store1) =>
      { outcome := SaveOutcome.sessionNotFound
        sessionStore := store1, payloadCache := payloadCache }
    | (some snapshot, store1) =>
      if snapshot.architonicUrl != args.architonicUrl then
        { outcome := SaveOutcome.urlMismatch snapshot.architonicUrl args.architonicUrl
          sessionStore := store1, payloadCache := payloadCache }
      else
        let validation := saveValidation deps args snapshot
        if validation.errorCount > 0 || !validation.valid then
          { outcome := SaveOutcome.validationFailed validation
            sessionStore := store1, payloadCache := payloadCache }
        else
          let pageId := deps.newPageId
          let missingFields := saveMissingFields deps args snapshot
          let split := splitMissingMatterbaseCreateFields missingFields
          if !split.nonRetryableMissingFields.isEmpty then
            { outcome := SaveOutcome.nonRetryableMissingFields pageId missingFields
                split.retryableMissingFields split.nonRetryableMissingFields
              sessionStore := store1
              payloadCache := payloadCacheDelete payloadCache pageId
              persistedPage := some pageId
              archivedPage := some pageId
              failedIndexNote := some
                ("Auto-marked as failed: missing non-retryable fields (" ++
                 String.intercalate ", " split.nonRetryableMissingFields ++
                 ") after save_brand_to_notion.") }
          else
            { outcome := SaveOutcome.saveSuccess pageId validation missingFields
                split.retryableMissingFields split.nonRetryableMissingFields
              sessionStore := store1
              payloadCache := payloadCacheSet
                (pruneMatterbaseCreatePayloadCache deps.now payloadCache)
                pageId (saveCreatePayload deps args snapshot)
              persistedPage := some pageId }

/-! ## Shared lemmas -/

/-- Structure of the assembled validation result, for any issue list. -/
lemma assembleValidationResult_spec (issues : List ValidationIssue) :
    (assembleValidationResult issues).issues = issues ∧
    (assembleValidationResult issues).errorCount =
      (issues.filter (fun i => i.severity == Severity.error)).length ∧
    (assembleValidationResult issues).warningCount =
      (issues.filter (fun i => i.severity == Severity.warning)).length ∧
    ((assembleValidationResult issues).valid = true ↔
      (assembleValidationResult issues).errorCount = 0) ∧
    (issues = [] →
      (assembleValidationResult issues).summary =
        "All checks passed. No dropped fields detected.") ∧
    (issues ≠ [] →
      (assembleValidationResult issues).summary =
        String.intercalate "; "
          ((if (assembleValidationResult issues).errorCount > 0 then
              [toString (assembleValidationResult issues).errorCount ++
                " error(s) — fields that MUST be fixed"]
            else []) ++
           (if (assembleValidationResult issues).warningCount > 0 then
              [toString (assembleValidationResult issues).warningCount ++
                " warning(s) — review recommended"]
            else []))) := by
  refine ⟨rfl, rfl, rfl, ?_, ?_, ?_⟩
  · show ((issues.filter (fun i => i.severity == Severity.error)).length == 0) = true ↔ _
    simp [assembleValidationResult]
  · intro h
    simp [assembleValidationResult, h]
  · intro h
    have hne : issues.isEmpty = false := by
      cases issues with
      | nil => exact absurd rfl h
      | cons a l => rfl
    show (if issues.isEmpty then _ else _) = _
    rw [hne]
    rfl

/-- An empty `errorCount` is forced to be positive by an error-severity
member of the issue list. -/
lemma errorCount_pos_of_mem {issues : List ValidationIssue} {i : ValidationIssue}
    (hi : i ∈ issues) (hs : i.severity = Severity.error) :
    1 ≤ (assembleValidationResult issues).errorCount := by
  have hmem : i ∈ issues.filter (fun j => j.severity == Severity.error) :=
    List.mem_filter.mpr ⟨hi, by simp [hs]⟩
  have := List.length_pos_of_mem hmem
  simpa [assembleValidationResult] using this

/-- Left injection into an append membership. -/
lemma mem_app_left {α : Type} {a : α} {l₁ l₂ : List α} (h : a ∈ l₁) : a ∈ l₁ ++ l₂ :=
  List.mem_append_left _ h

/-- Right injection into an append membership. -/
lemma mem_app_right {α : Type} {a : α} {l₁ l₂ : List α} (h : a ∈ l₂) : a ∈ l₁ ++ l₂ :=
  List.mem_append_right _ h

/-- A positive error count forces `valid = false`. -/
lemma valid_false_of_errorCount_pos {issues : List ValidationIssue}
    (h : 1 ≤ (assembleValidationResult issues).errorCount) :
    (assembleValidationResult issues).valid = false := by
  have hspec := (assembleValidationResult_spec issues).2.2.2.1
  cases hv : (assembleValidationResult issues).valid
  · rfl
  · exact absurd (hspec.mp hv) (by omega)

/-- Empty distributor cache (no cached extraction state). -/
def emptyDistCache : String → Option (List ParsedDistributor) := fun _ => none

/-- Empty catalog-link cache. -/
def emptyCatalogCache : String → Option (List ParsedCatalogLink) := fun _ => none

/-- Scrape result whose only ground-truth fact is a phone number. -/
def phoneOnlyScrapeResult : ScrapeResultInput :=
  { contactDetails := some [("phone", JVal.jstr "555-0100")] }

/-! ## C9: validation result assembly -/

/-- C9 counterexample: with ground truth `phone = "555-0100"` and an empty
proposed record there is one error and no warning; the issue list is
non-empty, yet the summary is only the error sentence — it does not name the
warning count (neither the word "warning" nor the count 0 occurs in it), so
the summary does not "name both counts" as the claim states. -/
theorem validation_summary_names_counts_counterexample :
    (executeValidateBrandData emptyDistCache emptyCatalogCache
      phoneOnlyScrapeResult {}).issues ≠ [] ∧
    (executeValidateBrandData emptyDistCache emptyCatalogCache
      phoneOnlyScrapeResult {}).warningCount = 0 ∧
    (executeValidateBrandData emptyDistCache emptyCatalogCache
      phoneOnlyScrapeResult {}).summary = "1 error(s) — fields that MUST be fixed" ∧
    hasSubstr "warning".data (executeValidateBrandData emptyDistCache emptyCatalogCache
      phoneOnlyScrapeResult {}).summary.data = false ∧
    hasSubstr "0".data (executeValidateBrandData emptyDistCache emptyCatalogCache
      phoneOnlyScrapeResult {}).summary.data = false := by
  refine ⟨?_, rfl, rfl, rfl, rfl⟩
  simp [executeValidateBrandData, validationIssues, assembleValidationResult]
  decide

/-- C9 (amended): `errorCount` and `warningCount` are the tallies of the
issue list by severity, `valid` holds iff `errorCount == 0`, and the summary
is the all-checks-passed sentence when the issue list is empty, else the
join of one sentence per non-zero severity count. -/
theorem validation_result_assembly (dc : String → Option (List ParsedDistributor))
    (cc : String → Option (List ParsedCatalogLink)) (sr : ScrapeResultInput)
    (bd : BrandData) :
    (executeValidateBrandData dc cc sr bd).errorCount =
      ((executeValidateBrandData dc cc sr bd).issues.filter
        (fun i => i.severity == Severity.error)).length ∧
    (executeValidateBrandData dc cc sr bd).warningCount =
      ((executeValidateBrandData dc cc sr bd).issues.filter
        (fun i => i.severity == Severity.warning)).length ∧
    ((executeValidateBrandData dc cc sr bd).valid = true ↔
      (executeValidateBrandData dc cc sr bd).errorCount = 0) ∧
    ((executeValidateBrandData dc cc sr bd).issues = [] →
      (executeValidateBrandData dc cc sr bd).summary =
        "All checks passed. No dropped fields detected.") ∧
    ((executeValidateBrandData dc cc sr bd).issues ≠ [] →
      (executeValidateBrandData dc cc sr bd).summary =
        String.intercalate "; "
          ((if (executeValidateBrandData dc cc sr bd).errorCount > 0 then
              [toString (executeValidateBrandData dc cc sr bd).errorCount ++
                " error(s) — fields that MUST be fixed"]
            else []) ++
           (if (executeValidateBrandData dc cc sr bd).warningCount > 0 then
              [toString (executeValidateBrandData dc cc sr bd).warningCount ++
                " warning(s) — review recommended"]
            else []))) := by
  obtain ⟨h1, h2, h3, h4, h5, h6⟩ :=
    assembleValidationResult_spec (validationIssues dc cc sr bd)
  exact ⟨by rw [show (executeValidateBrandData dc cc sr bd).issues =
           validationIssues dc cc sr bd from rfl]; exact h2,
         by rw [show (executeValidateBrandData dc cc sr bd).issues =
           validationIssues dc cc sr bd from rfl]; exact h3,
         h4, fun h => h5 h, fun h => h6 h⟩

/-- C9 witness: the amended assembly theorem applied at the phone-only input,
its conditional parts discharged there. -/
theorem validation_result_assembly_witness :
    (executeValidateBrandData emptyDistCache emptyCatalogCache
      phoneOnlyScrapeResult {}).valid = false ∧
    (executeValidateBrandData emptyDistCache emptyCatalogCache
      phoneOnlyScrapeResult {}).summary =
      String.intercalate "; "
        ((if (executeValidateBrandData emptyDistCache emptyCatalogCache
              phoneOnlyScrapeResult {}).errorCount > 0 then
            [toString (executeValidateBrandData emptyDistCache emptyCatalogCache
              phoneOnlyScrapeResult {}).errorCount ++
              " error(s) — fields that MUST be fixed"]
          else []) ++
         (if (executeValidateBrandData emptyDistCache emptyCatalogCache
              phoneOnlyScrapeResult {}).warningCount > 0 then
            [toString (executeValidateBrandData emptyDistCache emptyCatalogCache
              phoneOnlyScrapeResult {}).warningCount ++
              " warning(s) — review recommended"]
          else [])) := by
  obtain ⟨-, -, h3, -, h6⟩ :=
    validation_result_assembly emptyDistCache emptyCatalogCache phoneOnlyScrapeResult {}
  constructor
  · by_contra hvalid
    have : (executeValidateBrandData emptyDistCache emptyCatalogCache
        phoneOnlyScrapeResult {}).valid = true := by
      cases h : (executeValidateBrandData emptyDistCache emptyCatalogCache
        phoneOnlyScrapeResult {}).valid
      · exact absurd h hvalid
      · rfl
    have h0 := h3.mp this
    have : (executeValidateBrandData emptyDistCache emptyCatalogCache
        phoneOnlyScrapeResult {}).errorCount = 1 := by decide
    omega
  · exact h6 (by decide)

/-! ## C4: contact field presence checks -/

/-- `checkContactField` emits an error exactly when the source value is
present and the target value is not. -/
lemma checkContactField_emits (cd : FieldBag) (sourceKey targetKey label : String)
    (received : Option JVal) (hsrc : jFilled (bagGet cd sourceKey) = true)
    (hrecv : jFilled received = false) :
    ∃ i ∈ checkContactField cd sourceKey targetKey label received,
      i.field = targetKey ∧ i.severity = Severity.error := by
  match hbag : bagGet cd sourceKey with
  | none => rw [hbag] at hsrc; simp [jFilled] at hsrc
  | some e =>
    rw [hbag] at hsrc
    have hlist : checkContactField cd sourceKey targetKey label received =
        [{ field := targetKey, severity := Severity.error,
           message := label ++ " present in contactDetails." ++ sourceKey ++
             " but missing from brandData." ++ targetKey,
           expected := some e, received := received }] := by
      simp [checkContactField, hbag, hsrc, hrecv]
    rw [hlist]
    exact ⟨_, List.mem_singleton_self _, rfl, rfl⟩

/-- `checkEmailField` emits an error when the scraped email is present but
both proposed email fields are empty. -/
lemma checkEmailField_emits (cd : FieldBag) (bd : BrandData)
    (hsrc : jFilled (bagGet cd "email") = true)
    (h1 : jFilled bd.email = false) (h2 : jFilled bd.contactEmail = false) :
    ∃ i ∈ checkEmailField cd bd, i.field = "email" ∧ i.severity = Severity.error := by
  match hbag : bagGet cd "email" with
  | none => rw [hbag] at hsrc; simp [jFilled] at hsrc
  | some e =>
    rw [hbag] at hsrc
    have hlist : checkEmailField cd bd =
        [{ field := "email", severity := Severity.error,
           message := "Email present in contactDetails.email but missing from both brandData.email and brandData.contactEmail",
           expected := some e, received := none }] := by
      simp [checkEmailField, hbag, hsrc, h1, h2]
    rw [hlist]
    exact ⟨_, List.mem_singleton_self _, rfl, rfl⟩

/-- `checkEmailField` is satisfied by either populated proposed email field. -/
lemma checkEmailField_satisfied (cd : FieldBag) (bd : BrandData)
    (h : jFilled bd.email = true ∨ jFilled bd.contactEmail = true) :
    checkEmailField cd bd = [] := by
  match hbag : bagGet cd "email" with
  | none => simp [checkEmailField, hbag]
  | some e =>
    rcases h with h | h <;> simp [checkEmailField, hbag, h]

/-- The ten source-key/target-key/received-value triples of the non-email
contact presence checks, in source order. -/
def contactFieldTriples (bd : BrandData) : List (String × String × Option JVal) :=
  [("phone", "phone", bd.phone), ("street", "street", bd.street),
   ("city", "city", bd.city), ("zip", "postalCode", bd.postalCode),
   ("lat", "latitude", bd.latitude), ("lng", "longitude", bd.longitude),
   ("website", "website", bd.website), ("facebook", "facebook", bd.facebook),
   ("instagram", "instagram", bd.instagram), ("pinterest", "pinterest", bd.pinterest)]

/-- C4: for each of the eleven contact fields, a present ground-truth value
with an empty or absent proposed counterpart yields an error-severity issue
on that field; the email check alone is satisfied by either the generic or
the contact email; and present ground-truth phone with a missing proposed
phone forces `errorCount ≥ 1` and `valid = false`. -/
theorem contact_field_presence_errors (dc : String → Option (List ParsedDistributor))
    (cc : String → Option (List ParsedCatalogLink)) (sr : ScrapeResultInput)
    (bd : BrandData) :
    (∀ p ∈ contactFieldTriples bd,
      jFilled (bagGet (sr.contactDetails.getD []) p.1) = true →
      jFilled p.2.2 = false →
      ∃ i ∈ (executeValidateBrandData dc cc sr bd).issues,
        i.field = p.2.1 ∧ i.severity = Severity.error) ∧
    (jFilled (bagGet (sr.contactDetails.getD []) "email") = true →
      jFilled bd.email = false → jFilled bd.contactEmail = false →
      ∃ i ∈ (executeValidateBrandData dc cc sr bd).issues,
        i.field = "email" ∧ i.severity = Severity.error) ∧
    (jFilled bd.email = true ∨ jFilled bd.contactEmail = true →
      checkEmailField (sr.contactDetails.getD []) bd = []) ∧
    (jFilled (bagGet (sr.contactDetails.getD []) "phone") = true →
      jFilled bd.phone = false →
      1 ≤ (executeValidateBrandData dc cc sr bd).errorCount ∧
      (executeValidateBrandData dc cc sr bd).valid = false) := by
  have hmem : ∀ (i : ValidationIssue),
      (i ∈ checkContactField (sr.contactDetails.getD []) "phone" "phone" "Phone" bd.phone ∨
       i ∈ checkEmailField (sr.contactDetails.getD []) bd ∨
       i ∈ checkContactField (sr.contactDetails.getD []) "street" "street" "Street" bd.street ∨
       i ∈ checkContactField (sr.contactDetails.getD []) "city" "city" "City" bd.city ∨
       i ∈ checkContactField (sr.contactDetails.getD []) "zip" "postalCode" "Postal code" bd.postalCode ∨
       i ∈ checkContactField (sr.contactDetails.getD []) "lat" "latitude" "Latitude" bd.latitude ∨
       i ∈ checkContactField (sr.contactDetails.getD []) "lng" "longitude" "Longitude" bd.longitude ∨
       i ∈ checkContactField (sr.contactDetails.getD []) "website" "website" "Website" bd.website ∨
       i ∈ checkContactField (sr.contactDetails.getD []) "facebook" "facebook" "Facebook" bd.facebook ∨
       i ∈ checkContactField (sr.contactDetails.getD []) "instagram" "instagram" "Instagram" bd.instagram ∨
       i ∈ checkContactField (sr.contactDetails.getD []) "pinterest" "pinterest" "Pinterest" bd.pinterest) →
      i ∈ (executeValidateBrandData dc cc sr bd).issues := by
    intro i hi
    show i ∈ validationIssues dc cc sr bd
    rcases hi with h|h|h|h|h|h|h|h|h|h|h
    · exact mem_app_left (mem_app_left (mem_app_left (mem_app_left (mem_app_left
        (mem_app_left (mem_app_left (mem_app_left (mem_app_left (mem_app_left
        (mem_app_left (mem_app_left (mem_app_left (mem_app_left (mem_app_left h))))))))))))))
    · exact mem_app_left (mem_app_left (mem_app_left (mem_app_left (mem_app_left
        (mem_app_left (mem_app_left (mem_app_left (mem_app_left (mem_app_left
        (mem_app_left (mem_app_left (mem_app_left (mem_app_left (mem_app_right h))))))))))))))
    · exact mem_app_left (mem_app_left (mem_app_left (mem_app_left (mem_app_left
        (mem_app_left (mem_app_left (mem_app_left (mem_app_left (mem_app_left
        (mem_app_left (mem_app_left (mem_app_left (mem_app_right h)))))))))))))
    · exact mem_app_left (mem_app_left (mem_app_left (mem_app_left (mem_app_left
        (mem_app_left (mem_app_left (mem_app_left (mem_app_left (mem_app_left
        (mem_app_left (mem_app_left (mem_app_right h))))))))))))
    · exact mem_app_left (mem_app_left (mem_app_left (mem_app_left (mem_app_left
        (mem_app_left (mem_app_left (mem_app_left (mem_app_left (mem_app_left
        (mem_app_left (mem_app_right h)))))))))))
    · exact mem_app_left (mem_app_left (mem_app_left (mem_app_left (mem_app_left
        (mem_app_left (mem_app_left (mem_app_left (mem_app_left (mem_app_left
        (mem_app_right h))))))))))
    · exact mem_app_left (mem_app_left (mem_app_left (mem_app_left (mem_app_left
        (mem_app_left (mem_app_left (mem_app_left (mem_app_left (mem_app_right h)))))))))
    · exact mem_app_left (mem_app_left (mem_app_left (mem_app_left (mem_app_left
        (mem_app_left (mem_app_left (mem_app_left (mem_app_right h))))))))
    · exact mem_app_left (mem_app_left (mem_app_left (mem_app_left (mem_app_left
        (mem_app_left (mem_app_left (mem_app_right h)))))))
    · exact mem_app_left (mem_app_left (mem_app_left (mem_app_left (mem_app_left
        (mem_app_left (mem_app_right h))))))
    · exact mem_app_left (mem_app_left (mem_app_left (mem_app_left (mem_app_left
        (mem_app_right h)))))
  have hphone : jFilled (bagGet (sr.contactDetails.getD []) "phone") = true →
      jFilled bd.phone = false →
      ∃ i ∈ (executeValidateBrandData dc cc sr bd).issues,
        i.field = "phone" ∧ i.severity = Severity.error := by
    intro h1 h2
    obtain ⟨i, hi, hf, hs⟩ := checkContactField_emits _ "phone" "phone" "Phone" _ h1 h2
    exact ⟨i, hmem i (Or.inl hi), hf, hs⟩
  refine ⟨?_, ?_, checkEmailField_satisfied _ bd, ?_⟩
  · intro p hp h1 h2
    simp only [contactFieldTriples, List.mem_cons, List.not_mem_nil, or_false] at hp
    rcases hp with rfl|rfl|rfl|rfl|rfl|rfl|rfl|rfl|rfl|rfl
    · exact hphone h1 h2
    · obtain ⟨i, hi, hf, hs⟩ := checkContactField_emits _ "street" "street" "Street" _ h1 h2
      exact ⟨i, hmem i (Or.inr (Or.inr (Or.inl hi))), hf, hs⟩
    · obtain ⟨i, hi, hf, hs⟩ := checkContactField_emits _ "city" "city" "City" _ h1 h2
      exact ⟨i, hmem i (Or.inr (Or.inr (Or.inr (Or.inl hi)))), hf, hs⟩
    · obtain ⟨i, hi, hf, hs⟩ := checkContactField_emits _ "zip" "postalCode" "Postal code" _ h1 h2
      exact ⟨i, hmem i (Or.inr (Or.inr (Or.inr (Or.inr (Or.inl hi))))), hf, hs⟩
    · obtain ⟨i, hi, hf, hs⟩ := checkContactField_emits _ "lat" "latitude" "Latitude" _ h1 h2
      exact ⟨i, hmem i (Or.inr (Or.inr (Or.inr (Or.inr (Or.inr (Or.inl hi)))))), hf, hs⟩
    · obtain ⟨i, hi, hf, hs⟩ := checkContactField_emits _ "lng" "longitude" "Longitude" _ h1 h2
      exact ⟨i, hmem i (Or.inr (Or.inr (Or.inr (Or.inr (Or.inr (Or.inr (Or.inl hi))))))), hf, hs⟩
    · obtain ⟨i, hi, hf, hs⟩ := checkContactField_emits _ "website" "website" "Website" _ h1 h2
      exact ⟨i, hmem i (Or.inr (Or.inr (Or.inr (Or.inr (Or.inr (Or.inr (Or.inr (Or.inl hi)))))))), hf, hs⟩
    · obtain ⟨i, hi, hf, hs⟩ := checkContactField_emits _ "facebook" "facebook" "Facebook" _ h1 h2
      exact ⟨i, hmem i (Or.inr (Or.inr (Or.inr (Or.inr (Or.inr (Or.inr (Or.inr (Or.inr (Or.inl hi))))))))), hf, hs⟩
    · obtain ⟨i, hi, hf, hs⟩ := checkContactField_emits _ "instagram" "instagram" "Instagram" _ h1 h2
      exact ⟨i, hmem i (Or.inr (Or.inr (Or.inr (Or.inr (Or.inr (Or.inr (Or.inr (Or.inr (Or.inr (Or.inl hi)))))))))), hf, hs⟩
    · obtain ⟨i, hi, hf, hs⟩ := checkContactField_emits _ "pinterest" "pinterest" "Pinterest" _ h1 h2
      exact ⟨i, hmem i (Or.inr (Or.inr (Or.inr (Or.inr (Or.inr (Or.inr (Or.inr (Or.inr (Or.inr (Or.inr hi)))))))))), hf, hs⟩
  · intro h1 h2 h3
    obtain ⟨i, hi, hf, hs⟩ := checkEmailField_emits _ bd h1 h2 h3
    exact ⟨i, hmem i (Or.inr (Or.inl hi)), hf, hs⟩
  · intro h1 h2
    obtain ⟨i, hi, hf, hs⟩ := hphone h1 h2
    have hcount : 1 ≤ (executeValidateBrandData dc cc sr bd).errorCount :=
      errorCount_pos_of_mem hi hs
    exact ⟨hcount, valid_false_of_errorCount_pos hcount⟩

/-- C4 witness: ground truth `phone = "555-0100"` against an empty proposed
record has at least one error and fails validation. -/
theorem contact_field_presence_errors_witness :
    1 ≤ (executeValidateBrandData emptyDistCache emptyCatalogCache
      phoneOnlyScrapeResult {}).errorCount ∧
    (executeValidateBrandData emptyDistCache emptyCatalogCache
      phoneOnlyScrapeResult {}).valid = false :=
  (contact_field_presence_errors emptyDistCache emptyCatalogCache
    phoneOnlyScrapeResult {}).2.2.2 (by decide) (by decide)

/-! ## C8: distributor reconciliation issues are warnings -/

/-- Every issue of a single distributor field comparison is a warning. -/
lemma checkDistField_warning {dname label : String} {pv mv : Option String}
    {i : ValidationIssue} (hi : i ∈ checkDistField dname label pv mv) :
    i.severity = Severity.warning := by
  unfold checkDistField at hi
  split at hi
  · simp only [List.mem_singleton] at hi
    subst hi
    rfl
  · simp at hi

/-- Every per-distributor field issue is a warning. -/
lemma distributorFieldIssues_warning {pbn : List (String × ProposedDistributor)}
    {p : ParsedDistributor} {i : ValidationIssue}
    (hi : i ∈ distributorFieldIssues pbn p) : i.severity = Severity.warning := by
  unfold distributorFieldIssues at hi
  match h : mapGet pbn (strTrim (strToLower p.name)) with
  | none => rw [h] at hi; simp at hi
  | some m =>
    rw [h] at hi
    simp only [List.mem_append] at hi
    rcases hi with ((((h1|h1)|h1)|h1)|h1)|h1 <;> exact checkDistField_warning h1

/-- Every issue of the resolved distributor check body is a warning. -/
lemma checkDistributorsCore_warning {l : List ParsedDistributor} {bd : BrandData}
    {i : ValidationIssue} (hi : i ∈ checkDistributorsCore l bd) :
    i.severity = Severity.warning := by
  unfold checkDistributorsCore at hi
  by_cases hp : (bd.distributors.getD []).isEmpty
  · rw [if_pos hp] at hi
    simp only [List.mem_singleton] at hi
    subst hi
    rfl
  · rw [if_neg hp] at hi
    simp only [List.mem_append] at hi
    rcases hi with (hc | hf) | hm
    · split at hc
      · simp only [List.mem_singleton] at hc
        subst hc
        rfl
      · simp at hc
    · rw [List.mem_flatMap] at hf
      obtain ⟨p, -, hip⟩ := hf
      exact distributorFieldIssues_warning hip
    · split at hm
      · simp at hm
      · simp only [List.mem_singleton] at hm
        subst hm
        rfl

/-- C8: every issue produced by the distributor reconciliation check has
warning severity; a proposed record with no distributors against non-empty
ground truth yields exactly the zero-distributors warning carrying the full
ground-truth count; and a proposed count strictly under 50% of the
ground-truth count puts the count-mismatch warning in the output. -/
theorem distributor_issues_all_warnings
    (dc : String → Option (List ParsedDistributor))
    (pd : Option (List ParsedDistributor)) (bd : BrandData) :
    (∀ i ∈ checkDistributors dc pd bd, i.severity = Severity.warning) ∧
    (∀ l, resolveCheckDistributorsGT dc pd bd = some l → l ≠ [] →
      bd.distributors.getD [] = [] →
      checkDistributors dc pd bd = [zeroDistributorsWarning l.length]) ∧
    (∀ l ps, resolveCheckDistributorsGT dc pd bd = some l → bd.distributors = some ps →
      ps ≠ [] → 2 * ps.length < l.length →
      distributorCountMismatchWarning l.length ps.length ∈ checkDistributors dc pd bd) := by
  refine ⟨?_, ?_, ?_⟩
  · intro i hi
    unfold checkDistributors at hi
    match h : resolveCheckDistributorsGT dc pd bd with
    | none => rw [h] at hi; simp at hi
    | some l =>
      rw [h] at hi
      have hi2 : i ∈ (if l.isEmpty = true then ([] : List ValidationIssue)
          else checkDistributorsCore l bd) := hi
      by_cases hl : l.isEmpty = true
      · rw [if_pos hl] at hi2; simp at hi2
      · rw [if_neg hl] at hi2
        exact checkDistributorsCore_warning hi2
  · intro l hres hl hprop
    unfold checkDistributors
    rw [hres]
    show (if l.isEmpty = true then ([] : List ValidationIssue)
        else checkDistributorsCore l bd) = [zeroDistributorsWarning l.length]
    have hneg : ¬(l.isEmpty = true) := by
      cases l with
      | nil => exact absurd rfl hl
      | cons a t => simp
    rw [if_neg hneg]
    unfold checkDistributorsCore
    rw [hprop]
    rfl
  · intro l ps hres hprop hps hcount
    unfold checkDistributors
    rw [hres]
    show distributorCountMismatchWarning l.length ps.length ∈
      (if l.isEmpty = true then ([] : List ValidationIssue) else checkDistributorsCore l bd)
    have hneg : ¬(l.isEmpty = true) := by
      cases l with
      | nil => simp at hcount
      | cons a t => simp
    rw [if_neg hneg]
    unfold checkDistributorsCore
    rw [hprop]
    have hpse : ¬((some ps).getD []).isEmpty = true := by
      cases ps with
      | nil => exact absurd rfl hps
      | cons a t => simp
    rw [if_neg hpse]
    refine mem_app_left (mem_app_left ?_)
    show distributorCountMismatchWarning l.length ps.length ∈
      (if 2 * ((some ps).getD []).length < l.length
        then [distributorCountMismatchWarning l.length ((some ps).getD []).length] else [])
    simp only [Option.getD_some]
    rw [if_pos hcount]
    exact List.mem_singleton_self _

/-- C8 ground truth for the witness: ten named distributors. -/
def tenDistributors : List ParsedDistributor :=
  [{ name := "D1" }, { name := "D2" }, { name := "D3" }, { name := "D4" },
   { name := "D5" }, { name := "D6" }, { name := "D7" }, { name := "D8" },
   { name := "D9" }, { name := "D10" }]

/-- C8 proposed record for the witness: four distributors matched by name. -/
def fourMatchedBrandData : BrandData :=
  { distributors := some
      [{ name := some "D1" }, { name := some "D2" },
       { name := some "D3" }, { name := some "D4" }] }

/-- C8 witness: ten ground-truth distributors against four matched proposed
ones yield the 40% count-mismatch warning, and every emitted issue is a
warning (hence no error). -/
theorem distributor_issues_all_warnings_witness :
    distributorCountMismatchWarning 10 4 ∈
      checkDistributors emptyDistCache (some tenDistributors) fourMatchedBrandData ∧
    ∀ i ∈ checkDistributors emptyDistCache (some tenDistributors) fourMatchedBrandData,
      i.severity = Severity.warning := by
  obtain ⟨h1, -, h3⟩ :=
    distributor_issues_all_warnings emptyDistCache (some tenDistributors) fourMatchedBrandData
  exact ⟨h3 tenDistributors
    [{ name := some "D1" }, { name := some "D2" },
     { name := some "D3" }, { name := some "D4" }]
    rfl rfl (by decide) (by decide), h1⟩

/-! ## C2: distributor ground-truth resolution -/

/-- Modelled from the spec's words, for comparison with the implementation:
the distributor ground truth of the validation checks resolved as the richer
(by count) of the live extraction list and the auxiliary cache entry keyed by
the proposed record's source URL. -/
def checkDistributorsSpecRicher (distCache : String → Option (List ParsedDistributor))
    (parsedDistributors : Option (List ParsedDistributor)) (bd : BrandData) :
    List ValidationIssue :=
  let live := parsedDistributors.getD []
  let cached :=
    match bd.architonicUrl with
    | some url => (distCache url).getD []
    | none => []
  let groundTruth := if cached.length > live.length then cached else live
  if groundTruth.isEmpty then [] else checkDistributorsCore groundTruth bd

/-- Source URL under which the counterexample cache holds a richer list. -/
def richCacheUrl : String := "https://example.com/b/acme/1"

/-- Distributor cache with two entries for the counterexample URL. -/
def richDistCache : String → Option (List ParsedDistributor) := fun url =>
  if url == richCacheUrl then some [{ name := "B" }, { name := "C" }] else none

/-- Live extraction with a single distributor. -/
def liveOneDistributor : Option (List ParsedDistributor) := some [{ name := "A" }]

/-- Proposed record naming the one live distributor. -/
def oneMatchedBrandData : BrandData :=
  { architonicUrl := some richCacheUrl
    distributors := some [{ name := some "A" }] }

/-- C2 counterexample: the cache under the record's source URL holds two
distributors while the live extraction holds one (strictly fewer), yet
`checkDistributors` compares against the live list and reports nothing; the
spec-worded richer-wins resolution would compare against the cached list and
flag the two unmatched names.  The cached list is therefore not the
comparison baseline whenever it is strictly richer. -/
theorem distributor_ground_truth_counterexample :
    checkDistributors richDistCache liveOneDistributor oneMatchedBrandData = [] ∧
    checkDistributorsSpecRicher richDistCache liveOneDistributor oneMatchedBrandData ≠ [] ∧
    checkDistributors richDistCache liveOneDistributor oneMatchedBrandData ≠
      checkDistributorsSpecRicher richDistCache liveOneDistributor oneMatchedBrandData := by
  decide

/-- C2 (amended): the distributor checks compare against the live extraction
list whenever it is non-empty — the cache keyed by the record's source URL is
consulted only when the live list is missing or empty (and then only a
non-empty cache entry replaces it); the richer-by-count rule governs the
resolved record built by `buildResolvedBrandData`, not the validation ground
truth. -/
theorem distributor_ground_truth_resolution
    (dc : String → Option (List ParsedDistributor))
    (pd : Option (List ParsedDistributor)) (bd : BrandData) :
    (∀ l, pd = some l → l ≠ [] →
      checkDistributors dc pd bd = checkDistributorsCore l bd) ∧
    (∀ url c, (pd = none ∨ pd = some []) → bd.architonicUrl = some url → url ≠ "" →
      dc url = some c → c ≠ [] →
      checkDistributors dc pd bd = checkDistributorsCore c bd) ∧
    (∀ (distCache : String → Option (List ParsedDistributor))
       (catalogCache : String → Option (List ParsedCatalogLink))
       (imageCache : String → Option ExtractedImageUrls)
       (decodeUri : String → Option String)
       (args : SaveBrandArgs) (snapshot : BrandScrapeSessionSnapshot)
       (resolved : List ParsedDistributor),
      resolved = (if ((distCache args.architonicUrl).getD []).length >
          snapshot.parsedDistributors.length then
          (distCache args.architonicUrl).getD []
        else snapshot.parsedDistributors) →
      (buildResolvedBrandData distCache catalogCache imageCache decodeUri
        args snapshot).distributors =
        (if resolved.length > 0 then some resolved else none)) := by
  refine ⟨?_, ?_, ?_⟩
  · intro l hpd hl
    subst hpd
    have hne : ¬(l.isEmpty = true) := by
      cases l with
      | nil => exact absurd rfl hl
      | cons a t => simp
    have hres : resolveCheckDistributorsGT dc (some l) bd = some l := by
      unfold resolveCheckDistributorsGT
      show (if (l.isEmpty && strFilled bd.architonicUrl) = true then _ else some l) = some l
      have : (l.isEmpty && strFilled bd.architonicUrl) = false := by
        cases hfe : l.isEmpty with
        | false => rfl
        | true => exact absurd hfe hne
      rw [this]
      simp
    unfold checkDistributors
    rw [hres]
    show (if l.isEmpty = true then ([] : List ValidationIssue)
        else checkDistributorsCore l bd) = _
    rw [if_neg hne]
  · intro url c hpd hurl hu hdc hc
    have hres : resolveCheckDistributorsGT dc pd bd = some c := by
      unfold resolveCheckDistributorsGT
      have hfill : strFilled bd.architonicUrl = true := by
        rw [hurl]
        simp [strFilled, hu]
      have hlen : c.length > 0 := List.length_pos.mpr hc
      rcases hpd with rfl | rfl
      · show (if (true && strFilled bd.architonicUrl) = true then
            (match bd.architonicUrl with
             | some u =>
               (match dc u with
                | some cached => if cached.length > 0 then some cached else none
                | none => none)
             | none => none) else none) = some c
        rw [hfill, hurl]
        show (if (true && true) = true then
            (match dc url with
             | some cached => if cached.length > 0 then some cached else none
             | none => none) else none) = some c
        rw [hdc]
        simp [hlen]
      · show (if (true && strFilled bd.architonicUrl) = true then
            (match bd.architonicUrl with
             | some u =>
               (match dc u with
                | some cached => if cached.length > 0 then some cached else some []
                | none => some [])
             | none => some []) else some []) = some c
        rw [hfill, hurl]
        show (if (true && true) = true then
            (match dc url with
             | some cached => if cached.length > 0 then some cached else some []
             | none => some []) else some []) = some c
        rw [hdc]
        simp [hlen]
    unfold checkDistributors
    rw [hres]
    have hne : ¬(c.isEmpty = true) := by
      cases c with
      | nil => exact absurd rfl hc
      | cons a t => simp
    show (if c.isEmpty = true then ([] : List ValidationIssue)
        else checkDistributorsCore c bd) = _
    rw [if_neg hne]
  · intro distCache catalogCache imageCache decodeUri args snapshot resolved hres
    subst hres
    rfl

/-- Empty image-URL cache. -/
def emptyImageCache : String → Option ExtractedImageUrls := fun _ => none

/-- URI decoder that always fails (JS `decodeURIComponent` throwing; the
source falls back to the raw value). -/
def noDecode : String → Option String := fun _ => none

/-- A minimal scrape session snapshot for witnesses. -/
def baseSnapshot : BrandScrapeSessionSnapshot :=
  { scrapeSessionId := "s1"
    architonicUrl := "https://example.com/b/acme/1"
    createdAt := 1000
    contactDetails := []
    parsedDistributors := []
    parsedCatalogLinks := []
    extractedImageUrls := {} }

/-- Minimal matching save arguments for witnesses. -/
def baseArgs : SaveBrandArgs :=
  { name := "Acme"
    architonicUrl := "https://example.com/b/acme/1"
    scrapeSessionId := "s1" }

/-- C2 witness: the resolution theorem applied at concrete inputs — a
non-empty live list is used as is; an empty live list with a non-empty cache
entry under the record's URL is replaced by the cache; and the resolved
record prefers the richer cached list. -/
theorem distributor_ground_truth_resolution_witness :
    checkDistributors richDistCache liveOneDistributor oneMatchedBrandData =
      checkDistributorsCore [{ name := "A" }] oneMatchedBrandData ∧
    checkDistributors richDistCache (some []) oneMatchedBrandData =
      checkDistributorsCore [{ name := "B" }, { name := "C" }] oneMatchedBrandData ∧
    (buildResolvedBrandData richDistCache emptyCatalogCache emptyImageCache noDecode
      baseArgs baseSnapshot).distributors =
      some [{ name := "B" }, { name := "C" }] := by
  refine ⟨?_, ?_, ?_⟩
  · exact (distributor_ground_truth_resolution richDistCache liveOneDistributor
      oneMatchedBrandData).1 [{ name := "A" }] rfl (by decide)
  · exact (distributor_ground_truth_resolution richDistCache (some [])
      oneMatchedBrandData).2.1 richCacheUrl [{ name := "B" }, { name := "C" }]
      (Or.inr rfl) rfl (by decide) (by decide) (by decide)
  · exact (distributor_ground_truth_resolution richDistCache (some [])
      oneMatchedBrandData).2.2 richDistCache emptyCatalogCache emptyImageCache noDecode
      baseArgs baseSnapshot [{ name := "B" }, { name := "C" }] (by decide)

/-! ## C5: catalog-link extraction -/

/-- C5 counterexample: the extracted catalog-link list is not deduplicated —
a link list repeating the same catalog URL yields two entries with the same
URL (their mapped URLs are not pairwise distinct); and the filter requires a
slash before the keyword, so a URL whose path contains `catalog` without a
preceding slash is not extracted at all. -/
theorem catalog_links_counterexample :
    parsedCatalogLinksOfLinks
        (some ["https://x.com/catalog/a.pdf", "https://x.com/catalog/a.pdf"]) =
      [{ url := "https://x.com/catalog/a.pdf", filename := some "a.pdf" },
       { url := "https://x.com/catalog/a.pdf", filename := some "a.pdf" }] ∧
    ¬ ((parsedCatalogLinksOfLinks
        (some ["https://x.com/catalog/a.pdf", "https://x.com/catalog/a.pdf"])).map
          (fun e => e.url)).Nodup ∧
    hasSubstr "catalog".data "https://x.com/mycatalog".data = true ∧
    parsedCatalogLinksOfLinks (some ["https://x.com/mycatalog"]) = [] := by
  decide

/-- C5 (amended): the catalog-link list contains exactly the links accepted
by the filter (a slash-prefixed `catalog`/`download`/`pdf`/`brochure`
segment, case-insensitive, or a case-sensitive `.pdf` suffix), in input
order with duplicates preserved; each entry's filename is the last
slash-separated segment of its URL; URLs are pairwise distinct only when the
input link list itself has no duplicates. -/
theorem catalog_links_extraction (links : List String) :
    (∀ e ∈ parsedCatalogLinksOfLinks (some links),
      e.url ∈ links ∧ catalogLinkTest e.url = true ∧
      e.filename = (splitOnChar '/' e.url).getLast?) ∧
    (∀ l ∈ links, catalogLinkTest l = true →
      ({ url := l, filename := (splitOnChar '/' l).getLast? } : ParsedCatalogLink) ∈
        parsedCatalogLinksOfLinks (some links)) ∧
    (links.Nodup →
      ((parsedCatalogLinksOfLinks (some links)).map (fun e => e.url)).Pairwise
        (fun a b => a ≠ b)) := by
  refine ⟨?_, ?_, ?_⟩
  · intro e he
    unfold parsedCatalogLinksOfLinks at he
    rw [List.mem_map] at he
    obtain ⟨l, hl, rfl⟩ := he
    rw [List.mem_filter] at hl
    exact ⟨hl.1, hl.2, rfl⟩
  · intro l hl ht
    unfold parsedCatalogLinksOfLinks
    exact List.mem_map.mpr ⟨l, List.mem_filter.mpr ⟨hl, ht⟩, rfl⟩
  · intro h
    unfold parsedCatalogLinksOfLinks
    rw [List.map_map]
    exact List.pairwise_map.mpr (h.filter catalogLinkTest)

/-- C5 witness: the amended extraction theorem at a concrete link list. -/
theorem catalog_links_extraction_witness :
    ({ url := "https://x.com/catalog/a.pdf", filename := some "a.pdf" } :
        ParsedCatalogLink) ∈
      parsedCatalogLinksOfLinks
        (some ["https://x.com/catalog/a.pdf", "https://x.com/about"]) ∧
    ((parsedCatalogLinksOfLinks
        (some ["https://x.com/catalog/a.pdf", "https://x.com/about"])).map
      (fun e => e.url)).Pairwise (fun a b => a ≠ b) := by
  constructor
  · exact (catalog_links_extraction
      ["https://x.com/catalog/a.pdf", "https://x.com/about"]).2.1
      "https://x.com/catalog/a.pdf" (by decide) (by decide)
  · exact (catalog_links_extraction
      ["https://x.com/catalog/a.pdf", "https://x.com/about"]).2.2 (by decide)

/-! ## C7: session expiry -/

/-- Filtering a duplicate-free list in which exactly one member fails the
predicate removes exactly that member. -/
lemma filter_remove_one {α : Type} [DecidableEq α] (p : α → Bool) (l : List α) (x : α)
    (hx : x ∈ l) (hnd : l.Nodup) (hpx : p x = false)
    (hother : ∀ y ∈ l, y ≠ x → p y = true) :
    (l.filter p).length + 1 = l.length ∧ ∀ y ∈ l.filter p, y ≠ x := by
  induction l with
  | nil => simp at hx
  | cons a t ih =>
    rw [List.nodup_cons] at hnd
    rcases List.mem_cons.mp hx with rfl | hxt
    · have hall : ∀ y ∈ t, p y = true := fun y hy =>
        hother y (List.mem_cons_of_mem _ hy) (fun h => hnd.1 (h ▸ hy))
      have hfe : t.filter p = t := List.filter_eq_self.mpr hall
      have hstep : (x :: t).filter p = t.filter p := by
        rw [List.filter_cons, hpx]
        rfl
      constructor
      · rw [hstep, hfe]
        rfl
      · intro y hy
        rw [hstep, hfe] at hy
        exact fun h => hnd.1 (h ▸ hy)
    · have hax : a ≠ x := fun h => hnd.1 (h ▸ hxt)
      have hpa : p a = true := hother a (List.mem_cons_self _ _) hax
      obtain ⟨ihl, ihm⟩ := ih hxt hnd.2 (fun y hy hyx =>
        hother y (List.mem_cons_of_mem _ hy) hyx)
      have hstep : (a :: t).filter p = a :: t.filter p := by
        rw [List.filter_cons, hpa]
        rfl
      constructor
      · rw [hstep]
        simp only [List.length_cons]
        omega
      · intro y hy
        rw [hstep] at hy
        rcases List.mem_cons.mp hy with h | hy2
        · rw [h]
          exact hax
        · exact ihm y hy2

/-- Below capacity, the session-store prune is just the TTL filter. -/
lemma prune_below_capacity (now : Int) (store : List BrandScrapeSessionSnapshot)
    (hlen : store.length ≤ BRAND_SCRAPE_SESSION_MAX_ENTRIES) :
    pruneBrandScrapeSessionCache now store =
      store.filter
        (fun s => !(decide (now - s.createdAt > BRAND_SCRAPE_SESSION_TTL_MS))) := by
  unfold pruneBrandScrapeSessionCache pruneByAge
  have h : (store.filter
      (fun s => !(decide (now - s.createdAt > BRAND_SCRAPE_SESSION_TTL_MS)))).length ≤
      BRAND_SCRAPE_SESSION_MAX_ENTRIES :=
    le_trans (List.length_filter_le _ _) hlen
  rw [if_pos h]

/-- C7: a `get` strictly after the session's TTL returns `none` — exactly as
for a session that never existed — and removes the expired entry, shrinking
the store by one (the other entries being unexpired and session ids unique,
as the store invariants guarantee). -/
theorem session_expiry_get_none (store : List BrandScrapeSessionSnapshot)
    (snap : BrandScrapeSessionSnapshot) (now : Int)
    (hmem : snap ∈ store)
    (hnodup : (store.map (fun s => s.scrapeSessionId)).Nodup)
    (hlen : store.length ≤ BRAND_SCRAPE_SESSION_MAX_ENTRIES)
    (hexp : now - snap.createdAt > BRAND_SCRAPE_SESSION_TTL_MS)
    (hothers : ∀ s ∈ store, s ≠ snap →
      now - s.createdAt ≤ BRAND_SCRAPE_SESSION_TTL_MS) :
    (getBrandScrapeSession now snap.scrapeSessionId store).1 = none ∧
    (getBrandScrapeSession now snap.scrapeSessionId store).2.length + 1 = store.length ∧
    (∀ s ∈ (getBrandScrapeSession now snap.scrapeSessionId store).2,
      s.scrapeSessionId ≠ snap.scrapeSessionId) := by
  have hstore_nodup : store.Nodup := List.Nodup.of_map _ hnodup
  have hpx : (fun s => !(decide (now - s.createdAt > BRAND_SCRAPE_SESSION_TTL_MS))) snap
      = false := by simp [hexp]
  have hpo : ∀ y ∈ store, y ≠ snap →
      (fun s => !(decide (now - s.createdAt > BRAND_SCRAPE_SESSION_TTL_MS))) y = true := by
    intro y hy hyx
    simp only [Bool.not_eq_true', decide_eq_false_iff_not, not_lt]
    exact hothers y hy hyx
  obtain ⟨hlen1, hmem1⟩ := filter_remove_one _ store snap hmem hstore_nodup hpx hpo
  have hid : ∀ s ∈ store.filter
      (fun s => !(decide (now - s.createdAt > BRAND_SCRAPE_SESSION_TTL_MS))),
      s.scrapeSessionId ≠ snap.scrapeSessionId := by
    intro s hs hideq
    exact hmem1 s hs
      (List.inj_on_of_nodup_map hnodup (List.mem_of_mem_filter hs) hmem hideq)
  have hfind : (store.filter
      (fun s => !(decide (now - s.createdAt > BRAND_SCRAPE_SESSION_TTL_MS)))).find?
        (fun s => s.scrapeSessionId == snap.scrapeSessionId) = none := by
    rw [List.find?_eq_none]
    intro s hs
    simp only [beq_iff_eq]
    exact hid s hs
  have hget : getBrandScrapeSession now snap.scrapeSessionId store =
      (none, store.filter
        (fun s => !(decide (now - s.createdAt > BRAND_SCRAPE_SESSION_TTL_MS)))) := by
    simp only [getBrandScrapeSession]
    rw [prune_below_capacity now store hlen, hfind]
  rw [hget]
  exact ⟨rfl, hlen1, hid⟩

/-- C7 witness: a one-session store queried 1 ms after the TTL returns
`none` and is left empty. -/
theorem session_expiry_get_none_witness :
    (getBrandScrapeSession (1000 + BRAND_SCRAPE_SESSION_TTL_MS + 1) "s1"
      [baseSnapshot]).1 = none ∧
    (getBrandScrapeSession (1000 + BRAND_SCRAPE_SESSION_TTL_MS + 1) "s1"
      [baseSnapshot]).2.length + 1 = 1 := by
  have h := session_expiry_get_none [baseSnapshot] baseSnapshot
    (1000 + BRAND_SCRAPE_SESSION_TTL_MS + 1)
    (List.mem_singleton_self _) (by decide) (by decide) (by decide)
    (by intro s hs hne; exact absurd (List.mem_singleton.mp hs) hne)
  exact ⟨h.1, h.2.1⟩

/-! ## C6: session-store capacity and eviction -/

/-- A fold of `min` stays at its initial value when that value is a lower
bound. -/
lemma foldl_min_eq {α : Type} (f : α → Int) (a : Int) (l : List α)
    (h : ∀ y ∈ l, a ≤ f y) :
    l.foldl (fun m y => min m (f y)) a = a := by
  induction l with
  | nil => rfl
  | cons y t ih =>
    have hy : min a (f y) = a := min_eq_left (h y (List.mem_cons_self _ _))
    show t.foldl (fun m y => min m (f y)) (min a (f y)) = a
    rw [hy]
    exact ih (fun z hz => h z (List.mem_cons_of_mem _ hz))

/-- A fold of `min` over a list returns the initial value or the key of some
member. -/
lemma foldl_min_choice {α : Type} (f : α → Int) (l : List α) : ∀ (a : Int),
    l.foldl (fun m y => min m (f y)) a = a ∨
    ∃ x ∈ l, l.foldl (fun m y => min m (f y)) a = f x := by
  induction l with
  | nil => intro a; left; rfl
  | cons y t ih =>
    intro a
    show t.foldl (fun m y => min m (f y)) (min a (f y)) = a ∨
      ∃ x ∈ y :: t, t.foldl (fun m y => min m (f y)) (min a (f y)) = f x
    rcases ih (min a (f y)) with h | ⟨x, hx, h⟩
    · rcases le_total a (f y) with hle | hle
      · left
        rw [h, min_eq_left hle]
      · right
        exact ⟨y, List.mem_cons_self _ _, by rw [h, min_eq_right hle]⟩
    · right
      exact ⟨x, List.mem_cons_of_mem _ hx, h⟩

/-- On a non-empty list, the minimum key is attained by a member. -/
lemma minKey_mem {α : Type} (f : α → Int) (x : α) (t : List α) :
    ∃ y ∈ x :: t, f y = minKey f (x :: t) := by
  show ∃ y ∈ x :: t, f y = t.foldl (fun m y => min m (f y)) (f x)
  rcases foldl_min_choice f t (f x) with h | ⟨z, hz, h⟩
  · exact ⟨x, List.mem_cons_self _ _, h.symm⟩
  · exact ⟨z, List.mem_cons_of_mem _ hz, h.symm⟩

/-- Erasing an attained key removes exactly one entry. -/
lemma eraseFirstKey_length {α : Type} (f : α → Int) (t : Int) (l : List α)
    (h : ∃ x ∈ l, f x = t) :
    (eraseFirstKey f t l).length + 1 = l.length := by
  induction l with
  | nil => simp at h
  | cons a r ih =>
    unfold eraseFirstKey
    by_cases ha : f a == t
    · rw [if_pos ha]
      rfl
    · rw [if_neg ha]
      obtain ⟨x, hx, hfx⟩ := h
      rcases List.mem_cons.mp hx with rfl | hxr
      · exact absurd (by simp [hfx]) ha
      · have := ih ⟨x, hxr, hfx⟩
        simp only [List.length_cons]
        omega

/-- `removeOldestBy` removes exactly as many entries as requested (when that
many exist). -/
lemma removeOldestBy_length {α : Type} (f : α → Int) :
    ∀ (n : Nat) (l : List α), n ≤ l.length →
    (removeOldestBy f n l).length = l.length - n := by
  intro n
  induction n with
  | zero => intro l _; simp [removeOldestBy]
  | succ m ih =>
    intro l hn
    match l with
    | [] => simp at hn
    | x :: t =>
      show (removeOldestBy f m (eraseFirstKey f (minKey f (x :: t)) (x :: t))).length = _
      obtain ⟨y, hy, hfy⟩ := minKey_mem f x t
      have hlen := eraseFirstKey_length f (minKey f (x :: t)) (x :: t) ⟨y, hy, hfy⟩
      have hle : m ≤ (eraseFirstKey f (minKey f (x :: t)) (x :: t)).length := by
        simp only [List.length_cons] at hlen hn ⊢
        omega
      rw [ih _ hle]
      simp only [List.length_cons] at hlen ⊢
      omega

/-- Invariant (5): the prune never leaves more than the configured maximum
number of entries. -/
lemma pruneByAge_length_le {α : Type} (f : α → Int) (ttl : Int) (maxEntries : Nat)
    (now : Int) (l : List α) :
    (pruneByAge f ttl maxEntries now l).length ≤ maxEntries := by
  unfold pruneByAge
  by_cases h : (l.filter (fun x => !(decide (now - f x > ttl)))).length ≤ maxEntries
  · rw [if_pos h]
    exact h
  · rw [if_neg h]
    rw [removeOldestBy_length f _ _ (Nat.sub_le _ _)]
    omega

/-- One scrape call that creates a session: its clock reading, the fresh
random id, and the snapshot input. -/
structure CreateEvent where
  time : Int
  id : String
  input : BrandScrapeSessionInput
deriving DecidableEq, Repr

/-- The snapshot a create event stores. -/
def mkSnapOfEvent (e : CreateEvent) : BrandScrapeSessionSnapshot :=
  mkBrandScrapeSessionSnapshot e.id e.time e.input

/-- A sequence of `createBrandScrapeSession` calls against the store. -/
def runCreates : List CreateEvent → List BrandScrapeSessionSnapshot →
    List BrandScrapeSessionSnapshot
  | [], store => store
  | e :: rest, store =>
    runCreates rest (createBrandScrapeSession e.time e.id e.input store).2

/-- The last `n` entries of a list. -/
def lastN {α : Type} (n : Nat) (l : List α) : List α :=
  l.drop (l.length - n)

/-- `lastN` of a short list is the whole list. -/
lemma lastN_of_le {α : Type} {n : Nat} {l : List α} (h : l.length ≤ n) :
    lastN n l = l := by
  unfold lastN
  rw [Nat.sub_eq_zero_of_le h]
  exact List.drop_zero l

/-- `lastN` ignores a prepended element while enough entries remain. -/
lemma lastN_cons {α : Type} (x : α) (l : List α) (n : Nat) (h : n ≤ l.length) :
    lastN n (x :: l) = lastN n l := by
  unfold lastN
  have hstep : (x :: l).length - n = (l.length - n) + 1 := by
    simp only [List.length_cons]
    omega
  rw [hstep, List.drop_succ_cons]

/-- The session-store prune is the identity on an unexpired, within-capacity
store. -/
lemma prune_noop (now : Int) (store : List BrandScrapeSessionSnapshot)
    (hfresh : ∀ s ∈ store, now - s.createdAt ≤ BRAND_SCRAPE_SESSION_TTL_MS)
    (hlen : store.length ≤ BRAND_SCRAPE_SESSION_MAX_ENTRIES) :
    pruneBrandScrapeSessionCache now store = store := by
  rw [prune_below_capacity now store hlen]
  apply List.filter_eq_self.mpr
  intro s hs
  simp only [Bool.not_eq_true', decide_eq_false_iff_not, not_lt]
  exact hfresh s hs

/-- Setting a fresh key appends. -/
lemma sessionStoreSet_append (store : List BrandScrapeSessionSnapshot)
    (snap : BrandScrapeSessionSnapshot)
    (hid : ∀ s ∈ store, s.scrapeSessionId ≠ snap.scrapeSessionId) :
    sessionStoreSet store snap = store ++ [snap] := by
  unfold sessionStoreSet
  have hany : store.any (fun s => s.scrapeSessionId == snap.scrapeSessionId) = false := by
    rw [List.any_eq_false]
    intro s hs
    simp only [beq_iff_eq]
    exact hid s hs
  rw [hany]
  simp

/-- One create against an unexpired, sorted, within-capacity store with a
fresh id: append the new snapshot; if that overflows the capacity, evict the
oldest (head) entry. -/
lemma createBrandScrapeSession_step (now : Int) (id : String)
    (input : BrandScrapeSessionInput) (store : List BrandScrapeSessionSnapshot)
    (hfresh : ∀ s ∈ store, now - s.createdAt ≤ BRAND_SCRAPE_SESSION_TTL_MS)
    (hlen : store.length ≤ BRAND_SCRAPE_SESSION_MAX_ENTRIES)
    (hid : ∀ s ∈ store, s.scrapeSessionId ≠ id)
    (hsorted : store.Pairwise (fun a b => a.createdAt ≤ b.createdAt))
    (hbefore : ∀ s ∈ store, s.createdAt ≤ now) :
    (createBrandScrapeSession now id input store).2 =
      if store.length + 1 ≤ BRAND_SCRAPE_SESSION_MAX_ENTRIES then
        store ++ [mkBrandScrapeSessionSnapshot id now input]
      else store.tail ++ [mkBrandScrapeSessionSnapshot id now input] := by
  have h1 : pruneBrandScrapeSessionCache now store = store := prune_noop now store hfresh hlen
  have h2 : sessionStoreSet store (mkBrandScrapeSessionSnapshot id now input) =
      store ++ [mkBrandScrapeSessionSnapshot id now input] :=
    sessionStoreSet_append store _ hid
  show pruneBrandScrapeSessionCache now
    (sessionStoreSet (pruneBrandScrapeSessionCache now store)
      (mkBrandScrapeSessionSnapshot id now input)) = _
  rw [h1, h2]
  have httl : (0 : Int) ≤ BRAND_SCRAPE_SESSION_TTL_MS := by decide
  have hfresh2 : ∀ s ∈ store ++ [mkBrandScrapeSessionSnapshot id now input],
      now - s.createdAt ≤ BRAND_SCRAPE_SESSION_TTL_MS := by
    intro s hs
    rcases List.mem_append.mp hs with hs | hs
    · exact hfresh s hs
    · rw [List.mem_singleton.mp hs]
      show now - now ≤ BRAND_SCRAPE_SESSION_TTL_MS
      omega
  unfold pruneBrandScrapeSessionCache pruneByAge
  have hfe : (store ++ [mkBrandScrapeSessionSnapshot id now input]).filter
      (fun s => !(decide (now - s.createdAt > BRAND_SCRAPE_SESSION_TTL_MS))) =
      store ++ [mkBrandScrapeSessionSnapshot id now input] := by
    apply List.filter_eq_self.mpr
    intro s hs
    simp only [Bool.not_eq_true', decide_eq_false_iff_not, not_lt]
    exact hfresh2 s hs
  rw [hfe]
  show (if (store ++ [mkBrandScrapeSessionSnapshot id now input]).length ≤
        BRAND_SCRAPE_SESSION_MAX_ENTRIES then
      store ++ [mkBrandScrapeSessionSnapshot id now input]
    else removeOldestBy (fun s => s.createdAt)
      ((store ++ [mkBrandScrapeSessionSnapshot id now input]).length -
        BRAND_SCRAPE_SESSION_MAX_ENTRIES)
      (store ++ [mkBrandScrapeSessionSnapshot id now input])) = _
  have hlen2 : (store ++ [mkBrandScrapeSessionSnapshot id now input]).length =
      store.length + 1 := by simp
  rw [hlen2]
  by_cases hc : store.length + 1 ≤ BRAND_SCRAPE_SESSION_MAX_ENTRIES
  · rw [if_pos hc, if_pos hc]
  · rw [if_neg hc, if_neg hc]
    have h300 : store.length = BRAND_SCRAPE_SESSION_MAX_ENTRIES := by
      have : BRAND_SCRAPE_SESSION_MAX_ENTRIES ≤ store.length := by omega
      omega
    have hone : store.length + 1 - BRAND_SCRAPE_SESSION_MAX_ENTRIES = 1 := by omega
    rw [hone]
    match store, hsorted, hbefore, h300 with
    | s0 :: t, hsorted, hbefore, h300 =>
      rw [List.pairwise_cons] at hsorted
      have hmin : ∀ y ∈ t ++ [mkBrandScrapeSessionSnapshot id now input],
          s0.createdAt ≤ y.createdAt := by
        intro y hy
        rcases List.mem_append.mp hy with hy | hy
        · exact hsorted.1 y hy
        · rw [List.mem_singleton.mp hy]
          exact hbefore s0 (List.mem_cons_self _ _)
      have hkey : minKey (fun s => s.createdAt)
          ((s0 :: t) ++ [mkBrandScrapeSessionSnapshot id now input]) = s0.createdAt := by
        show (t ++ [mkBrandScrapeSessionSnapshot id now input]).foldl
          (fun m y => min m y.createdAt) s0.createdAt = s0.createdAt
        exact foldl_min_eq _ _ _ hmin
      show removeOldestBy (fun s => s.createdAt) 1
        ((s0 :: t) ++ [mkBrandScrapeSessionSnapshot id now input]) =
        t ++ [mkBrandScrapeSessionSnapshot id now input]
      show removeOldestBy (fun s => s.createdAt) 0
        (eraseFirstKey (fun s => s.createdAt)
          (minKey (fun s => s.createdAt)
            ((s0 :: t) ++ [mkBrandScrapeSessionSnapshot id now input]))
          ((s0 :: t) ++ [mkBrandScrapeSessionSnapshot id now input])) = _
      rw [hkey]
      show eraseFirstKey (fun s => s.createdAt) s0.createdAt
        (s0 :: (t ++ [mkBrandScrapeSessionSnapshot id now input])) = _
      unfold eraseFirstKey
      simp

/-- Running a time-ordered, TTL-windowed, fresh-id create sequence against a
sorted within-capacity store retains exactly the newest
`BRAND_SCRAPE_SESSION_MAX_ENTRIES` snapshots. -/
lemma runCreates_lastN (pending : List CreateEvent) :
    ∀ (store : List BrandScrapeSessionSnapshot),
    (∀ s ∈ store, ∀ e ∈ pending, s.createdAt ≤ e.time) →
    (∀ s ∈ store, ∀ e ∈ pending, e.time - s.createdAt ≤ BRAND_SCRAPE_SESSION_TTL_MS) →
    (∀ e ∈ pending, ∀ f ∈ pending, f.time - e.time ≤ BRAND_SCRAPE_SESSION_TTL_MS) →
    List.Pairwise (fun a b => a.time ≤ b.time) pending →
    (∀ s ∈ store, ∀ e ∈ pending, s.scrapeSessionId ≠ e.id) →
    (pending.map (fun e => e.id)).Nodup →
    store.Pairwise (fun a b => a.createdAt ≤ b.createdAt) →
    store.length ≤ BRAND_SCRAPE_SESSION_MAX_ENTRIES →
    runCreates pending store =
      lastN BRAND_SCRAPE_SESSION_MAX_ENTRIES (store ++ pending.map mkSnapOfEvent) := by
  induction pending with
  | nil =>
    intro store _ _ _ _ _ _ _ hlen
    show store = lastN BRAND_SCRAPE_SESSION_MAX_ENTRIES (store ++ [])
    rw [List.append_nil, lastN_of_le hlen]
  | cons e rest ih =>
    intro store htime hwin hwindow hpw hids hidnodup hsorted hlen
    have hpwc := List.pairwise_cons.mp hpw
    have hmapc : e.id ∉ rest.map (fun x => x.id) ∧ (rest.map (fun x => x.id)).Nodup :=
      List.nodup_cons.mp hidnodup
    have hstep := createBrandScrapeSession_step e.time e.id e.input store
      (fun s hs => hwin s hs e (List.mem_cons_self _ _))
      hlen
      (fun s hs => hids s hs e (List.mem_cons_self _ _))
      hsorted
      (fun s hs => htime s hs e (List.mem_cons_self _ _))
    show runCreates rest (createBrandScrapeSession e.time e.id e.input store).2 =
      lastN BRAND_SCRAPE_SESSION_MAX_ENTRIES
        (store ++ (mkSnapOfEvent e :: rest.map mkSnapOfEvent))
    rw [hstep]
    by_cases hc : store.length + 1 ≤ BRAND_SCRAPE_SESSION_MAX_ENTRIES
    · rw [if_pos hc]
      have happ : store ++ mkSnapOfEvent e :: rest.map mkSnapOfEvent =
          (store ++ [mkSnapOfEvent e]) ++ rest.map mkSnapOfEvent := by
        rw [List.append_assoc, List.singleton_append]
      rw [happ]
      apply ih (store ++ [mkSnapOfEvent e])
      · intro s hs f hf
        rcases List.mem_append.mp hs with hs | hs
        · exact htime s hs f (List.mem_cons_of_mem _ hf)
        · rw [List.mem_singleton.mp hs]
          exact hpwc.1 f hf
      · intro s hs f hf
        rcases List.mem_append.mp hs with hs | hs
        · exact hwin s hs f (List.mem_cons_of_mem _ hf)
        · rw [List.mem_singleton.mp hs]
          exact hwindow e (List.mem_cons_self _ _) f (List.mem_cons_of_mem _ hf)
      · intro a ha b hb
        exact hwindow a (List.mem_cons_of_mem _ ha) b (List.mem_cons_of_mem _ hb)
      · exact hpwc.2
      · intro s hs f hf
        rcases List.mem_append.mp hs with hs | hs
        · exact hids s hs f (List.mem_cons_of_mem _ hf)
        · rw [List.mem_singleton.mp hs]
          show e.id ≠ f.id
          intro hef
          exact hmapc.1 (hef ▸ List.mem_map_of_mem (fun x => x.id) hf)
      · exact hmapc.2
      · rw [List.pairwise_append]
        refine ⟨hsorted, List.pairwise_singleton _ _, ?_⟩
        intro s hs b hb
        rw [List.mem_singleton.mp hb]
        exact htime s hs e (List.mem_cons_self _ _)
      · simpa using hc
    · rw [if_neg hc]
      have h300 : store.length = BRAND_SCRAPE_SESSION_MAX_ENTRIES := by omega
      match store, htime, hwin, hids, hsorted, h300 with
      | s0 :: t, htime, hwin, hids, hsorted, h300 =>
        have hsortc := List.pairwise_cons.mp hsorted
        have hsub : ∀ s ∈ t, s ∈ s0 :: t := fun s hs => List.mem_cons_of_mem _ hs
        have hrec : runCreates rest ((s0 :: t).tail ++ [mkSnapOfEvent e]) =
            lastN BRAND_SCRAPE_SESSION_MAX_ENTRIES
              ((t ++ [mkSnapOfEvent e]) ++ rest.map mkSnapOfEvent) := by
          apply ih (t ++ [mkSnapOfEvent e])
          · intro s hs f hf
            rcases List.mem_append.mp hs with hs | hs
            · exact htime s (hsub s hs) f (List.mem_cons_of_mem _ hf)
            · rw [List.mem_singleton.mp hs]
              exact hpwc.1 f hf
          · intro s hs f hf
            rcases List.mem_append.mp hs with hs | hs
            · exact hwin s (hsub s hs) f (List.mem_cons_of_mem _ hf)
            · rw [List.mem_singleton.mp hs]
              exact hwindow e (List.mem_cons_self _ _) f (List.mem_cons_of_mem _ hf)
          · intro a ha b hb
            exact hwindow a (List.mem_cons_of_mem _ ha) b (List.mem_cons_of_mem _ hb)
          · exact hpwc.2
          · intro s hs f hf
            rcases List.mem_append.mp hs with hs | hs
            · exact hids s (hsub s hs) f (List.mem_cons_of_mem _ hf)
            · rw [List.mem_singleton.mp hs]
              show e.id ≠ f.id
              intro hef
              exact hmapc.1 (hef ▸ List.mem_map_of_mem (fun x => x.id) hf)
          · exact hmapc.2
          · rw [List.pairwise_append]
            refine ⟨hsortc.2, List.pairwise_singleton _ _, ?_⟩
            intro s hs b hb
            rw [List.mem_singleton.mp hb]
            exact htime s (hsub s hs) e (List.mem_cons_self _ _)
          · have : t.length + 1 = BRAND_SCRAPE_SESSION_MAX_ENTRIES := by
              simpa using h300
            simp only [List.length_append, List.length_singleton]
            omega
        show runCreates rest ((s0 :: t).tail ++ [mkSnapOfEvent e]) =
          lastN BRAND_SCRAPE_SESSION_MAX_ENTRIES
            ((s0 :: t) ++ mkSnapOfEvent e :: rest.map mkSnapOfEvent)
        rw [hrec]
        have hlen3 : BRAND_SCRAPE_SESSION_MAX_ENTRIES ≤
            ((t ++ [mkSnapOfEvent e]) ++ rest.map mkSnapOfEvent).length := by
          have : t.length + 1 = BRAND_SCRAPE_SESSION_MAX_ENTRIES := by simpa using h300
          simp only [List.length_append, List.length_singleton]
          omega
        have hshape : (s0 :: t) ++ mkSnapOfEvent e :: rest.map mkSnapOfEvent =
            s0 :: ((t ++ [mkSnapOfEvent e]) ++ rest.map mkSnapOfEvent) := by
          simp
        rw [hshape, lastN_cons _ _ _ hlen3]

/-- C6: after any insert the store holds at most
`BRAND_SCRAPE_SESSION_MAX_ENTRIES` (300) entries; and inserting a
time-ordered sequence of at least 300 unexpired sessions with fresh ids into
an empty store retains exactly the 300 most recently created snapshots
(oldest-created entries are evicted first). -/
theorem session_store_capacity_eviction (events : List CreateEvent)
    (hsorted : List.Pairwise (fun a b => a.time ≤ b.time) events)
    (hwindow : ∀ e ∈ events, ∀ f ∈ events,
      f.time - e.time ≤ BRAND_SCRAPE_SESSION_TTL_MS)
    (hids : (events.map (fun e => e.id)).Nodup)
    (hk : BRAND_SCRAPE_SESSION_MAX_ENTRIES ≤ events.length) :
    (∀ (now : Int) (id : String) (input : BrandScrapeSessionInput)
        (store : List BrandScrapeSessionSnapshot),
      (createBrandScrapeSession now id input store).2.length ≤
        BRAND_SCRAPE_SESSION_MAX_ENTRIES) ∧
    runCreates events [] =
      (events.map mkSnapOfEvent).drop
        (events.length - BRAND_SCRAPE_SESSION_MAX_ENTRIES) ∧
    (runCreates events []).length = BRAND_SCRAPE_SESSION_MAX_ENTRIES := by
  have hcap : ∀ (now : Int) (id : String) (input : BrandScrapeSessionInput)
      (store : List BrandScrapeSessionSnapshot),
      (createBrandScrapeSession now id input store).2.length ≤
        BRAND_SCRAPE_SESSION_MAX_ENTRIES := by
    intro now id input store
    exact pruneByAge_length_le _ _ _ _ _
  have hrun := runCreates_lastN events []
    (fun s hs => absurd hs (List.not_mem_nil s))
    (fun s hs => absurd hs (List.not_mem_nil s))
    hwindow hsorted
    (fun s hs => absurd hs (List.not_mem_nil s))
    hids List.Pairwise.nil (Nat.zero_le _)
  have heq : runCreates events [] =
      (events.map mkSnapOfEvent).drop
        (events.length - BRAND_SCRAPE_SESSION_MAX_ENTRIES) := by
    rw [hrun]
    show ([] ++ events.map mkSnapOfEvent).drop
      (([] ++ events.map mkSnapOfEvent).length - BRAND_SCRAPE_SESSION_MAX_ENTRIES) = _
    rw [List.nil_append, List.length_map]
  refine ⟨hcap, heq, ?_⟩
  rw [heq, List.length_drop, List.length_map]
  omega

/-- Snapshot input shared by the capacity-witness create events. -/
def c6Input : BrandScrapeSessionInput :=
  { architonicUrl := "https://example.com/b/acme/1"
    contactDetails := []
    parsedDistributors := []
    parsedCatalogLinks := []
    extractedImageUrls := {} }

/-- Id of the i-th capacity-witness create event: a run of i `a`s, injective
in i by length. -/
def c6Id (i : Nat) : String :=
  String.mk (List.replicate i 'a')

/-- 301 create events at times 0..300 with pairwise distinct ids. -/
def c6Events : List CreateEvent :=
  (List.range 301).map (fun i => { time := Int.ofNat i, id := c6Id i, input := c6Input })

/-- C6 witness: the capacity theorem applied to 301 concrete inserts —
exactly 300 entries remain, namely the 300 newest. -/
theorem session_store_capacity_eviction_witness :
    BRAND_SCRAPE_SESSION_MAX_ENTRIES ≤ c6Events.length ∧
    runCreates c6Events [] = (c6Events.map mkSnapOfEvent).drop 1 ∧
    (runCreates c6Events []).length = BRAND_SCRAPE_SESSION_MAX_ENTRIES := by
  have h1 : List.Pairwise (fun a b => a.time ≤ b.time) c6Events := by
    rw [c6Events, List.pairwise_map]
    refine (List.pairwise_lt_range 301).imp ?_
    intro i j hij
    show (i : Int) ≤ (j : Int)
    omega
  have h2 : (c6Events.map (fun e => e.id)).Nodup := by
    have hinj : Function.Injective c6Id := by
      intro i j h
      have hdata : List.replicate i 'a' = List.replicate j 'a' :=
        congrArg String.data h
      simpa using congrArg List.length hdata
    have hmm : c6Events.map (fun e => e.id) = (List.range 301).map c6Id := by
      rw [c6Events, List.map_map]
      rfl
    rw [hmm]
    exact (List.nodup_range 301).map hinj
  have h3 : BRAND_SCRAPE_SESSION_MAX_ENTRIES ≤ c6Events.length := by
    rw [c6Events, List.length_map, List.length_range]
    decide
  have hb : ∀ e ∈ c6Events, 0 ≤ e.time ∧ e.time ≤ 300 := by
    intro e he
    rw [c6Events, List.mem_map] at he
    obtain ⟨i, hi, rfl⟩ := he
    rw [List.mem_range] at hi
    show (0 : Int) ≤ (i : Int) ∧ (i : Int) ≤ 300
    omega
  have h4 : ∀ e ∈ c6Events, ∀ f ∈ c6Events,
      f.time - e.time ≤ BRAND_SCRAPE_SESSION_TTL_MS := by
    intro e he f hf
    obtain ⟨he1, he2⟩ := hb e he
    obtain ⟨hf1, hf2⟩ := hb f hf
    show f.time - e.time ≤ 3600000
    omega
  obtain ⟨-, heq, hlen⟩ := session_store_capacity_eviction c6Events h1 h4 h2 h3
  have hdrop : c6Events.length - BRAND_SCRAPE_SESSION_MAX_ENTRIES = 1 := by
    rw [c6Events, List.length_map, List.length_range]
    decide
  rw [hdrop] at heq
  exact ⟨h3, heq, hlen⟩

/-! ## C1: provenance URL mismatch vs session not found -/

/-- Every runtime property key of a `SaveBrandArgs` value is one of the
allowed save fields. -/
lemma saveArgsRawKeys_subset (args : SaveBrandArgs) :
    ∀ k ∈ saveArgsRawKeys args, k ∈ ALLOWED_SAVE_FIELDS := by
  intro k hk
  have hof : ∀ (c : Bool) (s : String), k ∈ (if c = true then [s] else []) → k = s := by
    intro c s h
    cases c
    · simp at h
    · simpa using h
  simp only [saveArgsRawKeys, List.mem_append] at hk
  rcases hk with ((((((((((hb | h) | h) | h) | h) | h) | h) | h) | h) | h) | h)
  · simp only [List.mem_cons, List.not_mem_nil, or_false] at hb
    rcases hb with rfl | rfl | rfl
    · decide
    · decide
    · decide
  all_goals rw [hof _ _ h]
  all_goals decide

/-- `findDisallowedInputFields` never fires on arguments of the declared save
input type: its runtime keys are allowed fields only, and the allowed and
disallowed field lists are disjoint. -/
lemma findDisallowed_saveArgs (args : SaveBrandArgs) :
    findDisallowedInputFields (saveArgsRawKeys args) = [] := by
  unfold findDisallowedInputFields
  rw [List.filter_eq_nil_iff]
  intro f hf hc
  have hk : f ∈ saveArgsRawKeys args := by
    have hc2 : (saveArgsRawKeys args).elem f = true := hc
    exact List.elem_iff.mp hc2
  have hdisj : ∀ g ∈ DISALLOWED_SCRAPED_FIELDS, g ∉ ALLOWED_SAVE_FIELDS := by decide
  exact hdisj f hf (saveArgsRawKeys_subset args f hk)

/-- C1: when the session ID resolves to an existing, unexpired session whose
recorded source URL differs from the caller-supplied URL, the save is
rejected with the `PROVENANCE_URL_MISMATCH` outcome with nothing persisted —
no page write, no archive, no failed-index note, and the payload cache
untouched; when the session is absent or expired the save instead returns the
`PROVENANCE_SESSION_NOT_FOUND` outcome (equally persisting nothing); and the
two outcomes are never equal. -/
theorem provenance_url_mismatch_rejection (deps : SaveDeps) (args : SaveBrandArgs)
    (sessionStore : List BrandScrapeSessionSnapshot)
    (payloadCache : MatterbasePayloadCache) :
    (∀ snapshot store1,
      getBrandScrapeSession deps.now args.scrapeSessionId sessionStore =
        (some snapshot, store1) →
      snapshot.architonicUrl ≠ args.architonicUrl →
      executeSaveBrandToNotion deps args sessionStore payloadCache =
        { outcome := SaveOutcome.urlMismatch snapshot.architonicUrl args.architonicUrl
          sessionStore := store1
          payloadCache := payloadCache
          persistedPage := none
          archivedPage := none
          failedIndexNote := none }) ∧
    (∀ store1,
      getBrandScrapeSession deps.now args.scrapeSessionId sessionStore =
        (none, store1) →
      executeSaveBrandToNotion deps args sessionStore payloadCache =
        { outcome := SaveOutcome.sessionNotFound
          sessionStore := store1
          payloadCache := payloadCache
          persistedPage := none
          archivedPage := none
          failedIndexNote := none }) ∧
    (∀ e r, SaveOutcome.urlMismatch e r ≠ SaveOutcome.sessionNotFound) := by
  refine ⟨?_, ?_, ?_⟩
  · intro snapshot store1 hget hne
    have hbne : (snapshot.architonicUrl != args.architonicUrl) = true := by
      simpa [bne_iff_ne] using hne
    simp only [executeSaveBrandToNotion, findDisallowed_saveArgs args, hget,
      List.isEmpty_nil, Bool.not_true, hbne, if_false, if_true]
    rfl
  · intro store1 hget
    simp only [executeSaveBrandToNotion, findDisallowed_saveArgs args, hget,
      List.isEmpty_nil, Bool.not_true, if_false]
    rfl
  · intro e r h
    exact SaveOutcome.noConfusion h

/-- Deterministic external collaborators shared by the save witnesses: clock
at 2000, empty extraction caches, failing URI decoder, contact discovery
disabled (no contacts), new page id `page-1`. -/
def stdSaveDeps : SaveDeps :=
  { now := 2000
    distCache := emptyDistCache
    catalogCache := emptyCatalogCache
    imageCache := emptyImageCache
    decodeUri := noDecode
    resolveHunter := fun _ _ => { contacts := [], source := "skipped" }
    newPageId := "page-1" }

/-- Save arguments referencing session `s1` under a URL that differs from the
session's recorded source URL. -/
def mismatchArgs : SaveBrandArgs :=
  { name := "Acme"
    architonicUrl := "https://example.com/b/acme/2"
    scrapeSessionId := "s1" }

/-- C1 witness: against a store holding the session `s1` recorded for
`.../acme/1`, a save citing `.../acme/2` is rejected as a URL mismatch with
nothing persisted; against an empty store the same save is rejected as
session-not-found; and the two outcomes differ. -/
theorem provenance_url_mismatch_rejection_witness :
    executeSaveBrandToNotion stdSaveDeps mismatchArgs [baseSnapshot] [] =
      { outcome := SaveOutcome.urlMismatch "https://example.com/b/acme/1"
          "https://example.com/b/acme/2"
        sessionStore := [baseSnapshot]
        payloadCache := []
        persistedPage := none
        archivedPage := none
        failedIndexNote := none } ∧
    executeSaveBrandToNotion stdSaveDeps mismatchArgs [] [] =
      { outcome := SaveOutcome.sessionNotFound
        sessionStore := []
        payloadCache := []
        persistedPage := none
        archivedPage := none
        failedIndexNote := none } ∧
    SaveOutcome.urlMismatch "https://example.com/b/acme/1"
        "https://example.com/b/acme/2" ≠ SaveOutcome.sessionNotFound := by
  refine ⟨?_, ?_, ?_⟩
  · exact (provenance_url_mismatch_rejection stdSaveDeps mismatchArgs
      [baseSnapshot] []).1 baseSnapshot [baseSnapshot] (by decide) (by decide)
  · exact (provenance_url_mismatch_rejection stdSaveDeps mismatchArgs [] []).2.1
      [] (by decide)
  · exact (provenance_url_mismatch_rejection stdSaveDeps mismatchArgs [] []).2.2
      "https://example.com/b/acme/1" "https://example.com/b/acme/2"

/-! ## C3: post-validation rollback vs retryable success -/

/-- C3: once the session matches and validation reports no errors, the save
persists the page and then gates on the deferred create payload.  A missing
non-retryable field rolls back — the payload-cache entry of the new page is
discarded, the just-persisted page is archived, and the index entry is marked
failed with the generated explanation; when only retryable fields are
missing, the save reports success carrying the retryable missing-field
list (and an empty non-retryable list), with nothing archived. -/
theorem save_rollback_or_retryable_success (deps : SaveDeps) (args : SaveBrandArgs)
    (sessionStore : List BrandScrapeSessionSnapshot)
    (payloadCache : MatterbasePayloadCache)
    (snapshot : BrandScrapeSessionSnapshot)
    (store1 : List BrandScrapeSessionSnapshot)
    (hget : getBrandScrapeSession deps.now args.scrapeSessionId sessionStore =
      (some snapshot, store1))
    (hurl : snapshot.architonicUrl = args.architonicUrl)
    (hvalid : (saveValidation deps args snapshot).errorCount = 0) :
    ((splitMissingMatterbaseCreateFields
        (saveMissingFields deps args snapshot)).nonRetryableMissingFields ≠ [] →
      executeSaveBrandToNotion deps args sessionStore payloadCache =
        { outcome := SaveOutcome.nonRetryableMissingFields deps.newPageId
            (saveMissingFields deps args snapshot)
            (splitMissingMatterbaseCreateFields
              (saveMissingFields deps args snapshot)).retryableMissingFields
            (splitMissingMatterbaseCreateFields
              (saveMissingFields deps args snapshot)).nonRetryableMissingFields
          sessionStore := store1
          payloadCache := payloadCacheDelete payloadCache deps.newPageId
          persistedPage := some deps.newPageId
          archivedPage := some deps.newPageId
          failedIndexNote := some
            ("Auto-marked as failed: missing non-retryable fields (" ++
             String.intercalate ", "
               (splitMissingMatterbaseCreateFields
                 (saveMissingFields deps args snapshot)).nonRetryableMissingFields ++
             ") after save_brand_to_notion.") }) ∧
    ((splitMissingMatterbaseCreateFields
        (saveMissingFields deps args snapshot)).nonRetryableMissingFields = [] →
      executeSaveBrandToNotion deps args sessionStore payloadCache =
        { outcome := SaveOutcome.saveSuccess deps.newPageId
            (saveValidation deps args snapshot)
            (saveMissingFields deps args snapshot)
            (splitMissingMatterbaseCreateFields
              (saveMissingFields deps args snapshot)).retryableMissingFields
            []
          sessionStore := store1
          payloadCache := payloadCacheSet
            (pruneMatterbaseCreatePayloadCache deps.now payloadCache)
            deps.newPageId (saveCreatePayload deps args snapshot)
          persistedPage := some deps.newPageId
          archivedPage := none
          failedIndexNote := none }) := by
  have hbne : (snapshot.architonicUrl != args.architonicUrl) = false := by
    rw [hurl]
    exact bne_self_eq_false _
  have hvalidity : (saveValidation deps args snapshot).valid = true := by
    have hiff := (assembleValidationResult_spec (validationIssues deps.distCache
      deps.catalogCache (saveScrapeResultForValidation snapshot)
      (toValidationBrandData (saveResolvedData deps args snapshot)))).2.2.2.1
    exact hiff.mpr hvalid
  have hec : decide ((saveValidation deps args snapshot).errorCount > 0) = false := by
    rw [hvalid]
    decide
  constructor
  · intro hnon
    have hne : ((splitMissingMatterbaseCreateFields
        (saveMissingFields deps args snapshot)).nonRetryableMissingFields.isEmpty)
        = false := by
      cases hl : (splitMissingMatterbaseCreateFields
          (saveMissingFields deps args snapshot)).nonRetryableMissingFields with
      | nil => exact absurd hl hnon
      | cons a t => rfl
    simp only [executeSaveBrandToNotion, findDisallowed_saveArgs args, hget,
      List.isEmpty_nil, Bool.not_true, hbne, hec, hvalidity, Bool.false_or,
      hne, Bool.not_false, if_false, if_true]
    rfl
  · intro hnil
    have hne : ((splitMissingMatterbaseCreateFields
        (saveMissingFields deps args snapshot)).nonRetryableMissingFields.isEmpty)
        = true := by
      rw [hnil]
      rfl
    simp only [executeSaveBrandToNotion, findDisallowed_saveArgs args, hget,
      List.isEmpty_nil, Bool.not_true, hbne, hec, hvalidity, Bool.false_or,
      hne, Bool.not_true, if_false, if_true, hnil]
    rfl

/-- Snapshot of session `s2` whose scraped contact details carry a website,
so the resolved record's website — a non-retryable payload field — is
present. -/
def websiteSnapshot : BrandScrapeSessionSnapshot :=
  { scrapeSessionId := "s2"
    architonicUrl := "https://example.com/b/acme/1"
    createdAt := 1000
    contactDetails := [("website", JVal.jstr "https://acme.example")]
    parsedDistributors := []
    parsedCatalogLinks := []
    extractedImageUrls := {} }

/-- Matching save arguments for session `s2`. -/
def websiteArgs : SaveBrandArgs :=
  { name := "Acme"
    architonicUrl := "https://example.com/b/acme/1"
    scrapeSessionId := "s2" }

/-- C3 witness: the gate theorem applied to two concrete passing saves.  One
(no scraped website) is missing the non-retryable `website` field and rolls
back — archived page and generated failure note; the other (scraped website
present) is missing only retryable fields and reports success carrying
exactly that retryable list, with nothing archived. -/
theorem save_rollback_or_retryable_success_witness :
    (executeSaveBrandToNotion stdSaveDeps baseArgs [baseSnapshot] []).outcome =
      SaveOutcome.nonRetryableMissingFields "page-1"
        ["productType", "countryCode", "countryName", "website", "contactEmail"]
        ["productType", "countryCode", "countryName", "contactEmail"]
        ["website"] ∧
    (executeSaveBrandToNotion stdSaveDeps baseArgs [baseSnapshot] []).archivedPage =
      some "page-1" ∧
    (executeSaveBrandToNotion stdSaveDeps baseArgs [baseSnapshot] []).failedIndexNote =
      some "Auto-marked as failed: missing non-retryable fields (website) after save_brand_to_notion." ∧
    (executeSaveBrandToNotion stdSaveDeps websiteArgs [websiteSnapshot] []).outcome =
      SaveOutcome.saveSuccess "page-1"
        (saveValidation stdSaveDeps websiteArgs websiteSnapshot)
        ["productType", "countryCode", "countryName", "contactEmail"]
        ["productType", "countryCode", "countryName", "contactEmail"] [] ∧
    (executeSaveBrandToNotion stdSaveDeps websiteArgs [websiteSnapshot]
      []).persistedPage = some "page-1" ∧
    (executeSaveBrandToNotion stdSaveDeps websiteArgs [websiteSnapshot]
      []).archivedPage = none := by
  have h1 := save_rollback_or_retryable_success stdSaveDeps baseArgs [baseSnapshot] []
    baseSnapshot [baseSnapshot] (by decide) (by decide) (by decide)
  have h2 := save_rollback_or_retryable_success stdSaveDeps websiteArgs
    [websiteSnapshot] [] websiteSnapshot [websiteSnapshot]
    (by decide) (by decide) (by decide)
  have e1 := h1.1 (by decide)
  have e2 := h2.2 (by decide)
  rw [e1, e2]
  refine ⟨by decide, rfl, by decide, by decide, rfl, rfl⟩

/-! ## C10: non-retryable missing fields are at most the website -/

/-- `toNonEmptyString` never produces the empty string. -/
lemma toNonEmptyString_ne (o : Option String) (t : String)
    (h : toNonEmptyString o = some t) : t ≠ "" := by
  cases o with
  | none => exact absurd h (by simp [toNonEmptyString])
  | some s =>
    simp only [toNonEmptyString] at h
    by_cases he : (strTrim s == "") = true
    · rw [if_pos he] at h
      exact absurd h (by simp)
    · rw [if_neg he] at h
      have heq : strTrim s = t := Option.some.inj h
      subst heq
      intro hbad
      exact he (by rw [hbad]; decide)

/-- C10: for any save whose `name` argument is non-empty, the non-retryable
missing-field list of the deferred create payload is `["website"]` when the
resolved website is empty and `[]` when it is present — never anything
else: the payload's `companyName` falls back to the brand name when not
supplied, and every other required field that can be absent (productType,
countryCode, countryName, contactEmail) is classified retryable.  Hence the
automatic archive-and-mark-failed rollback of the save gate can only be
triggered by a missing website. -/
theorem nonretryable_missing_only_website (deps : SaveDeps) (args : SaveBrandArgs)
    (snapshot : BrandScrapeSessionSnapshot) (hname : args.name ≠ "") :
    (saveCreatePayload deps args snapshot).companyName =
      (toNonEmptyString args.companyName).getD args.name ∧
    (splitMissingMatterbaseCreateFields
        (saveMissingFields deps args snapshot)).nonRetryableMissingFields =
      (if strFilled (saveCreatePayload deps args snapshot).website then []
       else ["website"]) ∧
    ∀ f ∈ (splitMissingMatterbaseCreateFields
        (saveMissingFields deps args snapshot)).nonRetryableMissingFields,
      f = "website" := by
  have hpname : (saveCreatePayload deps args snapshot).name = args.name := rfl
  have hpcomp : (saveCreatePayload deps args snapshot).companyName =
      (toNonEmptyString args.companyName).getD args.name := rfl
  have hn : ((saveCreatePayload deps args snapshot).name == "") = false := by
    rw [hpname]
    exact beq_eq_false_iff_ne.mpr hname
  have hc : ((saveCreatePayload deps args snapshot).companyName == "") = false := by
    rw [hpcomp]
    cases hcc : toNonEmptyString args.companyName with
    | none => simpa using beq_eq_false_iff_ne.mpr hname
    | some t =>
      simpa using beq_eq_false_iff_ne.mpr (toNonEmptyString_ne args.companyName t hcc)
  have key : (splitMissingMatterbaseCreateFields
      (saveMissingFields deps args snapshot)).nonRetryableMissingFields =
      (if strFilled (saveCreatePayload deps args snapshot).website then []
       else ["website"]) := by
    show (splitMissingMatterbaseCreateFields (getMissingMatterbaseCreatePayloadFields
      (saveCreatePayload deps args snapshot))).nonRetryableMissingFields = _
    unfold getMissingMatterbaseCreatePayloadFields
    rw [hn, hc]
    cases h1 : (saveCreatePayload deps args snapshot).productType.isEmpty <;>
      cases h2 : strFilled (saveCreatePayload deps args snapshot).countryCode <;>
      cases h3 : strFilled (saveCreatePayload deps args snapshot).countryName <;>
      cases h4 : strFilled (saveCreatePayload deps args snapshot).website <;>
      cases h5 : strFilled (saveCreatePayload deps args snapshot).contactEmail <;>
      decide
  refine ⟨hpcomp, key, ?_⟩
  intro f hf
  rw [key] at hf
  cases hw : strFilled (saveCreatePayload deps args snapshot).website <;> rw [hw] at hf
  · simpa using hf
  · simp at hf

/-- C10 witness: the theorem applied to the two concrete passing saves — with
no scraped website the non-retryable list is exactly `["website"]`; with a
scraped website it is empty. -/
theorem nonretryable_missing_only_website_witness :
    (splitMissingMatterbaseCreateFields
        (saveMissingFields stdSaveDeps baseArgs baseSnapshot)).nonRetryableMissingFields
      = ["website"] ∧
    (splitMissingMatterbaseCreateFields
        (saveMissingFields stdSaveDeps websiteArgs
          websiteSnapshot)).nonRetryableMissingFields = [] := by
  have h1 := nonretryable_missing_only_website stdSaveDeps baseArgs baseSnapshot
    (by decide)
  have h2 := nonretryable_missing_only_website stdSaveDeps websiteArgs websiteSnapshot
    (by decide)
  constructor
  · rw [h1.2.1]
    decide
  · rw [h2.2.1]
    decide

end Matterbot
